import Mathlib

/-!
# The notification client of fixora-frontend: `src/hooks/useWebSocket.js`

A shallow embedding of the `useWebSocket` hook.  The hook keeps its data in
React state (`isConnected`, `connectionError`) and in refs (`wsRef`,
`reconnectAttemptsRef`, `reconnectTimeoutRef`, `pingIntervalRef`,
`scanIdRef`); the browser keeps the sockets and the timers.  Both parts are
fields of one `State`, and every callback of the hook is a function on it.

Conventions.
* A socket handle is the index of the socket in `State.sockets`; a timer
  handle is the index of the timer in `State.timers` (the browser hands out
  the positive integer `index + 1`, so a stored handle is always truthy).
* `console.log` / `console.error` calls have no effect on the state and are
  left out.
* `getCookie` lives in `src/utils/cookies`, which is not part of the sources;
  its result for `auth_token` is the field `State.authToken`.
* `JSON.parse` and `JSON.stringify` belong to the browser; the handlers take
  them as the arguments `jsonParse` and `jsonStringify`.
* A message event changes no field of `State` (`onmessage` returns the state it
  was given), so `Event` has no constructor for it.

The scan socket that `src/pages/RepositoryDetail.js` manages by hand (lines
268-353) is embedded the same way, on `ScanState`; `DetailState` adds the React
state that `fetchData`, `executeScan` and the scan `onmessage` handler write.
An `async` function is embedded from the point where its `await` settles, with
the settled value as an argument.  `useScanWebSocket` is embedded on
`ScanHookState`.  `setCurrentScanId` is called in `RepositoryDetail.js` and
declared nowhere; `setCurrentScanId` below is that call, and the definitions
that take an argument `resolves` are the same code in a run in which the
identifier resolves or does not.
-/

namespace Fixora

/-! ## Constants (useWebSocket.js, lines 4-5) -/

/-- Source constant `WS_RECONNECT_INTERVAL`. -/
def WS_RECONNECT_INTERVAL : Nat := 3000

/-- Source constant `WS_MAX_RECONNECT_ATTEMPTS`. -/
def WS_MAX_RECONNECT_ATTEMPTS : Nat := 5

/-- Period of the keep-alive interval started in `ws.onopen` (line 76). -/
def PING_INTERVAL : Nat := 30000

/-! ## Browser side: sockets and timers -/

/-- The `readyState` of a browser `WebSocket`. -/
inductive ReadyState where
  | CONNECTING
  | OPEN
  | CLOSING
  | CLOSED
  deriving DecidableEq, Repr

/-- One recorded call of `WebSocket.close(code?, reason?)`. -/
structure CloseCall where
  code : Option Nat
  reason : Option String
  deriving DecidableEq, Repr

/-- A browser `WebSocket` created by the hook: the URL it was constructed
with, its `readyState`, the `close` calls and the frames sent on it. -/
structure Socket where
  url : String
  readyState : ReadyState
  closeCalls : List CloseCall
  sent : List String
  deriving DecidableEq, Repr

/-- The callback a timer runs: `() => { connect(); }` of line 123, or the
ping closure of line 72, which captures the socket `ws` it was created for. -/
inductive TimerKind where
  | reconnect
  | ping (ws : Nat)
  deriving DecidableEq, Repr

/-- A timer created with `setTimeout` / `setInterval`; `armed` is false once
it has been cleared or, for a timeout, has fired. -/
structure Timer where
  kind : TimerKind
  delay : Nat
  armed : Bool
  deriving DecidableEq, Repr

/-- The whole state: React state, refs, environment values read by
`getWsUrl`, and the sockets and timers the hook has created so far. -/
structure State where
  isConnected : Bool
  connectionError : Option String
  wsRef : Option Nat
  reconnectAttempts : Nat
  reconnectTimeoutRef : Option Nat
  pingIntervalRef : Option Nat
  scanIdRef : Option String
  authToken : Option String
  backendUrlEnv : Option String
  sockets : List Socket
  timers : List Timer
  deriving DecidableEq, Repr

/-- The state at mount: `useState(false)`, `useState(null)`, `useRef(null)`,
`useRef(0)`, `useRef(scanId)`; nothing created yet. -/
def State.init (authToken backendUrlEnv scanId : Option String) : State :=
  { isConnected := false
    connectionError := none
    wsRef := none
    reconnectAttempts := 0
    reconnectTimeoutRef := none
    pingIntervalRef := none
    scanIdRef := scanId
    authToken := authToken
    backendUrlEnv := backendUrlEnv
    sockets := []
    timers := [] }

/-- Browser `clearTimeout(id)` / `clearInterval(id)`: the timer with that
handle is disarmed; an unknown handle is ignored. -/
def clearTimer (id : Nat) (ts : List Timer) : List Timer :=
  ts.modify (fun t => { t with armed := false }) id

/-- Browser `WebSocket.close(code, reason)`: throws `InvalidAccessError` for a
code that is neither 1000 nor in 3000..4999 and `SyntaxError` for a reason
longer than 123 bytes; otherwise starts the closing handshake when the socket
is connecting or open, and does nothing when it is closing or closed. -/
def Socket.close (w : Socket) (code : Option Nat) (reason : Option String) :
    Except String Socket :=
  let codeOk : Bool :=
    match code with
    | none => true
    | some c => c == 1000 || (3000 ≤ c && c ≤ 4999)
  let reasonOk : Bool :=
    match reason with
    | none => true
    | some r => r.utf8ByteSize ≤ 123
  if !codeOk then .error "InvalidAccessError"
  else if !reasonOk then .error "SyntaxError"
  else
    .ok { w with
      closeCalls := w.closeCalls ++ [⟨code, reason⟩]
      readyState :=
        match w.readyState with
        | .CONNECTING => .CLOSING
        | .OPEN => .CLOSING
        | r => r }

/-- Call `close(code, reason)` on the socket with handle `h`. -/
def closeSocket (socks : List Socket) (h : Nat) (code : Option Nat)
    (reason : Option String) : Except String (List Socket) :=
  match socks[h]? with
  | none => .ok socks
  | some w =>
    match w.close code reason with
    | .error e => .error e
    | .ok w' => .ok (socks.set h w')

/-! ## String helpers used by `getWsUrl` -/

/-- JavaScript truthiness of a value that is a string, `null` or `undefined`. -/
def truthy : Option String → Bool
  | none => false
  | some s => s ≠ ""

/-- JavaScript `s.startsWith(p)`. -/
def startsWith (s p : String) : Bool :=
  p.data.isPrefixOf s.data

/-- JavaScript `s.replace(/^https?:\/\//, '')`: a leading `https://` or
`http://` is removed. -/
def stripHttpScheme (s : String) : String :=
  if "https://".data.isPrefixOf s.data then ⟨s.data.drop 8⟩
  else if "http://".data.isPrefixOf s.data then ⟨s.data.drop 7⟩
  else s

/-! ## The hook (useWebSocket.js, lines 30-154) -/

/-- Source `getWsUrl` (lines 30-46). -/
def getWsUrl (s : State) : Option String :=
  if !truthy s.authToken then none
  else
    let token := s.authToken.getD ""
    let backendUrl :=
      if truthy s.backendUrlEnv then s.backendUrlEnv.getD "" else "http://localhost:8000"
    let wsProtocol := if startsWith backendUrl "https" then "wss" else "ws"
    let wsHost := stripHttpScheme backendUrl
    let url := wsProtocol ++ "://" ++ wsHost ++ "/ws/notifications?token=" ++ token
    if truthy s.scanIdRef then some (url ++ "&scan_id=" ++ s.scanIdRef.getD "")
    else some url

/-- Source `connect` (lines 48-132).  `ctorThrows` is the outcome of
`new WebSocket(wsUrl)`: `none` when the constructor returns a socket,
`some msg` when it throws an error with message `msg` (caught at line 128).
The four handlers assigned at lines 65-127 are `onopen`, `onmessage`,
`onerror` and `onclose` below. -/
def connect (s : State) (ctorThrows : Option String) : Except String State :=
  match getWsUrl s with
  | none => .ok s
  | some wsUrl =>
    let closed : Except String State :=
      match s.wsRef with
      | none => .ok s
      | some h =>
        match closeSocket s.sockets h none none with
        | .error e => .error e
        | .ok socks => .ok { s with sockets := socks }
    match closed with
    | .error e => .error e
    | .ok s1 =>
      match ctorThrows with
      | some msg => .ok { s1 with connectionError := some msg }
      | none =>
        .ok { s1 with
          sockets := s1.sockets ++ [⟨wsUrl, .CONNECTING, [], []⟩]
          wsRef := some s1.sockets.length }

/-- Source `ws.onopen` (lines 65-77) of the socket with handle `ws`. -/
def onopen (ws : Nat) (s : State) : State :=
  { s with
    isConnected := true
    connectionError := none
    reconnectAttempts := 0
    pingIntervalRef := some s.timers.length
    timers := s.timers ++ [⟨.ping ws, PING_INTERVAL, true⟩] }

/-- Source `ws.onerror` (lines 103-106). -/
def onerror (s : State) : State :=
  { s with connectionError := some "Connection error" }

/-- Source `ws.onclose` (lines 108-127); `code` is `event.code`. -/
def onclose (s : State) (code : Nat) : State :=
  let s1 : State := { s with isConnected := false }
  let s2 : State :=
    match s1.pingIntervalRef with
    | some id => { s1 with timers := clearTimer id s1.timers, pingIntervalRef := none }
    | none => s1
  if code ≠ 1000 ∧ s2.reconnectAttempts < WS_MAX_RECONNECT_ATTEMPTS then
    { s2 with
      reconnectAttempts := s2.reconnectAttempts + 1
      reconnectTimeoutRef := some s2.timers.length
      timers := s2.timers ++ [⟨.reconnect, WS_RECONNECT_INTERVAL, true⟩] }
  else s2

/-- Source `disconnect` (lines 134-154). -/
def disconnect (s : State) : Except String State :=
  let s1 : State :=
    match s.reconnectTimeoutRef with
    | some id => { s with timers := clearTimer id s.timers, reconnectTimeoutRef := none }
    | none => s
  let s2 : State :=
    match s1.pingIntervalRef with
    | some id => { s1 with timers := clearTimer id s1.timers, pingIntervalRef := none }
    | none => s1
  let s3 : Except String State :=
    match s2.wsRef with
    | none => .ok s2
    | some h =>
      match closeSocket s2.sockets h (some 1000) (some "Intentional disconnect") with
      | .error e => .error e
      | .ok socks => .ok { s2 with sockets := socks, wsRef := none }
  match s3 with
  | .error e => .error e
  | .ok s4 => .ok { s4 with isConnected := false }

/-- The ping closure of lines 72-76, run on each tick of the interval created
for socket `ws`: `{"type":"ping"}` is sent when that socket is open. -/
def pingTick (ws : Nat) (s : State) : State :=
  match s.sockets[ws]? with
  | none => s
  | some w =>
    if w.readyState = .OPEN then
      { s with sockets := s.sockets.set ws { w with sent := w.sent ++ ["\x7b\"type\":\"ping\"\x7d"] } }
    else s

deriving instance DecidableEq for Except

/-! ## The event loop -/

/-- What the browser and the owning component can do to the hook. -/
inductive Event where
  | connect (ctorThrows : Option String)
  | disconnect
  | wsOpen (ws : Nat)
  | wsError (ws : Nat)
  | wsClose (ws : Nat) (code : Nat)
  | timerFires (id : Nat) (ctorThrows : Option String)
  deriving DecidableEq, Repr

/-- The browser sets the `readyState` of socket `h` before it dispatches the
matching event. -/
def setReadyState (socks : List Socket) (h : Nat) (r : ReadyState) : List Socket :=
  socks.modify (fun w => { w with readyState := r }) h

/-- An armed timer fires.  A reconnect timeout is one-shot: it is spent, then
its callback calls `connect()`.  A ping interval stays armed and runs the ping
closure.  A timer that is not armed runs nothing. -/
def fireTimer (s : State) (id : Nat) (ctorThrows : Option String) : Except String State :=
  match s.timers[id]? with
  | some ⟨.reconnect, _, true⟩ =>
    connect { s with timers := clearTimer id s.timers } ctorThrows
  | some ⟨.ping ws, _, true⟩ => .ok (pingTick ws s)
  | _ => .ok s

/-- Whether the event can happen in state `s`: `open` only for a connecting
socket, `error` and `close` only for a socket that is not closed yet, a timer
only while it is armed. -/
def enabled (s : State) : Event → Bool
  | .connect _ => true
  | .disconnect => true
  | .wsOpen h => (s.sockets[h]?.map (·.readyState)) == some .CONNECTING
  | .wsError h =>
    match s.sockets[h]? with
    | some w => w.readyState != .CLOSED
    | none => false
  | .wsClose h _ =>
    match s.sockets[h]? with
    | some w => w.readyState != .CLOSED
    | none => false
  | .timerFires id _ => (s.timers[id]?.map (·.armed)) == some true

/-- One event handled to completion. -/
def step (s : State) : Event → Except String State
  | .connect c => connect s c
  | .disconnect => disconnect s
  | .wsOpen h => .ok (onopen h { s with sockets := setReadyState s.sockets h .OPEN })
  | .wsError _ => .ok (onerror s)
  | .wsClose h code => .ok (onclose { s with sockets := setReadyState s.sockets h .CLOSED } code)
  | .timerFires id c => fireTimer s id c

/-- A sequence of events handled in order; an event that cannot happen, or a
callback that throws, ends the run with an error. -/
def run (s : State) : List Event → Except String State
  | [] => .ok s
  | e :: es =>
    if enabled s e then
      match step s e with
      | .ok s' => run s' es
      | .error m => .error m
    else .error "event not enabled"

/-- The reconnect timers that are armed, by handle. -/
def armedReconnectTimers (s : State) : List Nat :=
  (List.range s.timers.length).filter fun i =>
    match s.timers[i]? with
    | some ⟨.reconnect, _, true⟩ => true
    | _ => false

/-- The timers as `ws.onclose` leaves the ones that existed before it ran: the
ping interval held in `pingIntervalRef`, if any, is cleared. -/
def timersAfterPingClear (s : State) : List Timer :=
  match s.pingIntervalRef with
  | some id => clearTimer id s.timers
  | none => s.timers

/-- The state of `run` after the events, or the start state when the run ends
with an error. -/
def runD (s : State) (es : List Event) : State :=
  match run s es with
  | .ok s' => s'
  | .error _ => s

/-- Events of five failed connections in a row: the hook connects, and each
connection ends with close code 1006 and is followed by the firing of the
reconnect timer that close scheduled (the last timer has not fired yet). -/
def fiveFailures : List Event :=
  [.connect none,
   .wsClose 0 1006, .timerFires 0 none,
   .wsClose 1 1006, .timerFires 1 none,
   .wsClose 2 1006, .timerFires 2 none,
   .wsClose 3 1006, .timerFires 3 none,
   .wsClose 4 1006, .timerFires 4 none]

/-- A hook mounted with the token `tok`, no backend URL variable and no scan. -/
def mounted : State := State.init (some "tok") none none

/-- The hook after `fiveFailures`. -/
def afterFiveFailures : State := runD mounted fiveFailures

/-- An open connection that has already used one retry. -/
def openAfterOneRetry : State :=
  { mounted with
    isConnected := true
    reconnectAttempts := 1
    wsRef := some 0
    sockets := [⟨"ws://localhost:8000/ws/notifications?token=tok", .OPEN, [], []⟩] }

/-- Events after which one abnormal close has been counted: the hook connects
and the connection attempt fails with close code 1006. -/
def oneFailure : List Event :=
  [.connect none, .wsClose 0 1006]

/-- The hook after `oneFailure`. -/
def afterOneFailure : State := runD mounted oneFailure

/-- Events of a teardown during the handshake: the hook connects,
`disconnect()` is called while the socket is still connecting, and the browser
then reports the aborted handshake with close code 1006. -/
def disconnectWhileConnecting : List Event :=
  [.connect none, .disconnect, .wsClose 0 1006]

/-- Events that leave two reconnect timers armed before a teardown: socket 0 is
open when `connect()` is called again, its close event arrives with code 1005,
the replacing socket 1 fails with code 1006, and `disconnect()` is called. -/
def disconnectWithTwoTimers : List Event :=
  [.connect none, .wsOpen 0, .connect none, .wsClose 0 1005, .wsClose 1 1006, .disconnect]

/-- An open connection whose token has since been removed: `getCookie` now
returns the empty string. -/
def openWithoutToken : State :=
  { openAfterOneRetry with authToken := some "" }

/-- A hook mounted for scan `s1` against the backend `https://api.fixora.io`. -/
def mountedForScan : State :=
  State.init (some "tok") (some ("https://" ++ "api.fixora.io")) (some "s1")

/-! ## Messages: `ws.onmessage` and `sendMessage` -/

/-- A value produced by `JSON.parse`.  A number is kept as its text; the fields
of an object are its own properties, each key once. -/
inductive Json where
  | null
  | bool (b : Bool)
  | num (text : String)
  | str (s : String)
  | arr (items : List Json)
  | obj (fields : List (String × Json))

/-- JavaScript `data.type` for a parsed value: reading a property of `null`
throws a `TypeError`; an object yields its `type` field or `undefined`; a
boolean, number, string or array has no `type` property. -/
def Json.typeField : Json → Except String (Option Json)
  | .null => .error "TypeError"
  | .obj fields => .ok (fields.lookup "type")
  | _ => .ok none

/-- JavaScript `v === name` for the result `v` of `data.type` and a string
literal `name`. -/
def isString (v : Option Json) (name : String) : Bool :=
  match v with
  | some (.str t) => t == name
  | _ => false

/-- The consumer callback `onMessage` passed to the hook.  What it does with a
value is outside the hook, and it is taken not to call back into the hook;
`throwsOn data` tells whether the call raises. -/
structure Consumer where
  throwsOn : Json → Bool

/-- The `try` block of `ws.onmessage` (lines 80-97): the values the consumer was
called with, and whether the block completed or threw.  `jsonParse` is the
browser `JSON.parse`; `onMessage` is `none` when the hook got no callback. -/
def onmessageTry (jsonParse : String → Except String Json) (onMessage : Option Consumer)
    (text : String) : List Json × Except String Unit :=
  match jsonParse text with
  | .error e => ([], .error e)
  | .ok data =>
    match data.typeField with
    | .error e => ([], .error e)
    | .ok ty =>
      if isString ty "pong" then ([], .ok ())
      else if isString ty "connected" then ([], .ok ())
      else
        match onMessage with
        | none => ([], .ok ())
        | some f => ([data], if f.throwsOn data then .error "consumer threw" else .ok ())

/-- Source `ws.onmessage` (lines 79-101); `text` is `event.data`.  The `catch`
of line 98 logs whatever the `try` block threw.  The result is the state after
the handler and the values the consumer was called with, in order. -/
def onmessage (jsonParse : String → Except String Json) (onMessage : Option Consumer)
    (s : State) (text : String) : Except String (State × List Json) :=
  match onmessageTry jsonParse onMessage text with
  | (calls, .ok _) => .ok (s, calls)
  | (calls, .error _) => .ok (s, calls)

/-- Message events handled one after the other, in arrival order. -/
def onmessages (jsonParse : String → Except String Json) (onMessage : Option Consumer)
    (s : State) : List String → Except String (State × List Json)
  | [] => .ok (s, [])
  | text :: rest =>
    match onmessage jsonParse onMessage s text with
    | .error e => .error e
    | .ok (s1, calls1) =>
      match onmessages jsonParse onMessage s1 rest with
      | .error e => .error e
      | .ok (s2, calls2) => .ok (s2, calls1 ++ calls2)

/-- Source `sendMessage` (lines 156-162): the state after the call and the
returned boolean.  `jsonStringify` is the browser `JSON.stringify` on the
message. -/
def sendMessage (jsonStringify : Json → String) (s : State) (message : Json) : State × Bool :=
  match s.wsRef with
  | none => (s, false)
  | some h =>
    match s.sockets[h]? with
    | none => (s, false)
    | some w =>
      if w.readyState = .OPEN then
        ({ s with
            sockets := s.sockets.set h { w with sent := w.sent ++ [jsonStringify message] } },
         true)
      else (s, false)

/-- An application message: `text` parses to the object `data`, and the `type`
of `data` is neither `pong` nor `connected`. -/
def Forwardable (jsonParse : String → Except String Json) (text : String) (data : Json) : Prop :=
  ∃ fields, data = .obj fields ∧ jsonParse text = .ok data ∧
    fields.lookup "type" ≠ some (.str "pong") ∧ fields.lookup "type" ≠ some (.str "connected")

/-- The text `{"type":"scan_complete","notification":{"scan_id":"abc"}}`. -/
def scanCompleteText : String :=
  "\x7b\"type\":\"scan_complete\",\"notification\":\x7b\"scan_id\":\"abc\"\x7d\x7d"

/-- The object that `JSON.parse` returns for `scanCompleteText`. -/
def scanCompleteJson : Json :=
  .obj [("type", .str "scan_complete"), ("notification", .obj [("scan_id", .str "abc")])]

/-- The object that `JSON.parse` returns for `{"type":"pong","ts":"1"}`. -/
def pongJson : Json :=
  .obj [("type", .str "pong"), ("ts", .str "1")]

/-- The object that `JSON.parse` returns for `{"type":"connected"}`. -/
def connectedJson : Json :=
  .obj [("type", .str "connected")]

/-- What `JSON.parse` does on the four texts used in the examples: three
objects, and a `SyntaxError` for every other text. -/
def sampleParse (text : String) : Except String Json :=
  if text = scanCompleteText then .ok scanCompleteJson
  else if text = "\x7b\"type\":\"pong\",\"ts\":\"1\"\x7d" then .ok pongJson
  else if text = "\x7b\"type\":\"connected\"\x7d" then .ok connectedJson
  else .error "SyntaxError"

/-- A consumer that never throws. -/
def quietConsumer : Consumer := ⟨fun _ => false⟩

/-- What `JSON.stringify` does on the messages used in the examples. -/
def sampleStringify : Json → String
  | .obj [("type", .str t)] => "\x7b\"type\":\"" ++ t ++ "\"\x7d"
  | _ => "null"

/-- An open connection: mounted, connected, and the open event handled. -/
def openConnection : State := runD mounted [.connect none, .wsOpen 0]

/-! ## Reachable states -/

/-- The states the hook can reach: it is mounted, the event loop delivers
events that can happen, and between two events the cookie and the `scanId`
prop (copied into `scanIdRef` by the effect of lines 26-28) may change. -/
inductive Reachable : State → Prop
  | init (authToken backendUrlEnv scanId : Option String) :
      Reachable (State.init authToken backendUrlEnv scanId)
  | step {s s' : State} (e : Event) :
      Reachable s → enabled s e = true → step s e = .ok s' → Reachable s'
  | env {s : State} (authToken scanId : Option String) :
      Reachable s → Reachable { s with authToken := authToken, scanIdRef := scanId }

/-- Sockets on which `close()` has never been called, by handle. -/
def unclosedSockets (s : State) : List Nat :=
  (List.range s.sockets.length).filter fun i =>
    match s.sockets[i]? with
    | some w => w.closeCalls.isEmpty
    | none => false

/-- The ping intervals that are armed, each with the socket it pings. -/
def armedPingIntervals (s : State) : List (Nat × Nat) :=
  (List.range s.timers.length).filterMap fun i =>
    match s.timers[i]? with
    | some (Timer.mk (.ping ws) _ true) => some (i, ws)
    | _ => none

/-- Events in which a socket is replaced while it is open and the replacing
socket opens before the close event of the replaced one arrives: `connect()`,
open of socket 0, `connect()` again (socket 0 is closed, socket 1 created),
open of socket 1, close event of socket 0 with code 1005. -/
def replacedWhileOpen : List Event :=
  [.connect none, .wsOpen 0, .connect none, .wsOpen 1, .wsClose 0 1005]

/-- Events in which an open socket is replaced by a second `connect()`. -/
def replaceOnce : List Event :=
  [.connect none, .wsOpen 0, .connect none]

/-- Every socket on which `close()` was never called is the one in `wsRef`. -/
def UnclosedIsCurrent (s : State) : Prop :=
  ∀ i w, s.sockets[i]? = some w → w.closeCalls = [] → s.wsRef = some i

/-- The hook after `replaceOnce`. -/
def afterReplaceOnce : State := runD mounted replaceOnce

/-! ## The scan socket of `src/pages/RepositoryDetail.js` (lines 268-353) -/

/-- The refs `scanWsRef` and `pingIntervalRef` of the component, the
environment values read by `connectScanWebSocket`, and the sockets and timers
the component has created so far. -/
structure ScanState where
  scanWsRef : Option Nat
  pingIntervalRef : Option Nat
  authToken : Option String
  backendUrlEnv : Option String
  sockets : List Socket
  timers : List Timer
  deriving DecidableEq, Repr

/-- The component at mount: both refs are `useRef(null)`. -/
def ScanState.init (authToken backendUrlEnv : Option String) : ScanState :=
  { scanWsRef := none
    pingIntervalRef := none
    authToken := authToken
    backendUrlEnv := backendUrlEnv
    sockets := []
    timers := [] }

/-- The URL built at lines 277-280 of `connectScanWebSocket`. -/
def scanWsUrl (token : String) (backendUrlEnv : Option String) (scanId : String) : String :=
  let backendUrl :=
    if truthy backendUrlEnv then backendUrlEnv.getD "" else "http://localhost:8000"
  let wsProtocol := if startsWith backendUrl "https" then "wss" else "ws"
  let wsHost := stripHttpScheme backendUrl
  wsProtocol ++ "://" ++ wsHost ++ "/ws/notifications?token=" ++ token ++ "&scan_id=" ++ scanId

/-- Source `connectScanWebSocket` (lines 273-341).  `ctorThrows` is the
outcome of `new WebSocket(wsUrl)`; the call is not inside a `try`, so an error
of the constructor leaves the function.  The handlers assigned at lines
292-340 are `scanOnopen`, `scanOnclose` and, for `onerror`, a log line. -/
def connectScanWebSocket (s : ScanState) (scanId : Option String)
    (ctorThrows : Option String) : Except String ScanState :=
  if !truthy s.authToken || !truthy scanId then .ok s
  else
    let wsUrl := scanWsUrl (s.authToken.getD "") s.backendUrlEnv (scanId.getD "")
    let closed : Except String ScanState :=
      match s.scanWsRef with
      | none => .ok s
      | some h =>
        match closeSocket s.sockets h none none with
        | .error e => .error e
        | .ok socks => .ok { s with sockets := socks }
    match closed with
    | .error e => .error e
    | .ok s1 =>
      match ctorThrows with
      | some msg => .error msg
      | none =>
        .ok { s1 with
          sockets := s1.sockets ++ [⟨wsUrl, .CONNECTING, [], []⟩]
          scanWsRef := some s1.sockets.length }

/-- Source `ws.onopen` of the scan socket `ws` (lines 292-300). -/
def scanOnopen (ws : Nat) (s : ScanState) : ScanState :=
  { s with
    pingIntervalRef := some s.timers.length
    timers := s.timers ++ [⟨.ping ws, 30000, true⟩] }

/-- Source `ws.onclose` of a scan socket (lines 329-336); the close code is
only logged. -/
def scanOnclose (s : ScanState) : ScanState :=
  let s1 : ScanState :=
    match s.pingIntervalRef with
    | some id => { s with timers := clearTimer id s.timers, pingIntervalRef := none }
    | none => s
  { s1 with scanWsRef := none }

/-- The unmount cleanup of lines 343-353. -/
def scanCleanup (s : ScanState) : Except String ScanState :=
  let s1 : Except String ScanState :=
    match s.scanWsRef with
    | none => .ok s
    | some h =>
      match closeSocket s.sockets h none none with
      | .error e => .error e
      | .ok socks => .ok { s with sockets := socks }
  match s1 with
  | .error e => .error e
  | .ok s2 =>
    match s2.pingIntervalRef with
    | some id => .ok { s2 with timers := clearTimer id s2.timers }
    | none => .ok s2

/-- The ping closure of lines 295-299 for the scan socket `ws`. -/
def scanPingTick (ws : Nat) (s : ScanState) : ScanState :=
  match s.sockets[ws]? with
  | none => s
  | some w =>
    if w.readyState = .OPEN then
      { s with sockets := s.sockets.set ws { w with sent := w.sent ++ ["\x7b\"type\":\"ping\"\x7d"] } }
    else s

/-- What the browser and the component can do to the scan socket. -/
inductive ScanEvent where
  | connectScan (scanId : Option String) (ctorThrows : Option String)
  | wsOpen (ws : Nat)
  | wsError (ws : Nat)
  | wsClose (ws : Nat) (code : Nat)
  | timerFires (id : Nat)
  | unmount
  deriving DecidableEq, Repr

/-- Whether the event can happen in state `s`, as for the hook. -/
def scanEnabled (s : ScanState) : ScanEvent → Bool
  | .connectScan _ _ => true
  | .unmount => true
  | .wsOpen h => (s.sockets[h]?.map (·.readyState)) == some .CONNECTING
  | .wsError h =>
    match s.sockets[h]? with
    | some w => w.readyState != .CLOSED
    | none => false
  | .wsClose h _ =>
    match s.sockets[h]? with
    | some w => w.readyState != .CLOSED
    | none => false
  | .timerFires id => (s.timers[id]?.map (·.armed)) == some true

/-- One event of the scan socket handled to completion. -/
def scanStep (s : ScanState) : ScanEvent → Except String ScanState
  | .connectScan scanId c => connectScanWebSocket s scanId c
  | .unmount => scanCleanup s
  | .wsOpen h => .ok (scanOnopen h { s with sockets := setReadyState s.sockets h .OPEN })
  | .wsError _ => .ok s
  | .wsClose h _ => .ok (scanOnclose { s with sockets := setReadyState s.sockets h .CLOSED })
  | .timerFires id =>
    match s.timers[id]? with
    | some (Timer.mk (.ping ws) _ true) => .ok (scanPingTick ws s)
    | _ => .ok s

/-- A sequence of scan-socket events handled in order. -/
def scanRun (s : ScanState) : List ScanEvent → Except String ScanState
  | [] => .ok s
  | e :: es =>
    if scanEnabled s e then
      match scanStep s e with
      | .ok s' => scanRun s' es
      | .error m => .error m
    else .error "event not enabled"

/-- The states the scan-socket controller can reach. -/
inductive ScanReachable : ScanState → Prop
  | init (authToken backendUrlEnv : Option String) :
      ScanReachable (ScanState.init authToken backendUrlEnv)
  | step {s s' : ScanState} (e : ScanEvent) :
      ScanReachable s → scanEnabled s e = true → scanStep s e = .ok s' → ScanReachable s'
  | env {s : ScanState} (authToken : Option String) :
      ScanReachable s → ScanReachable { s with authToken := authToken }

/-- The component mounted with the token `tok` and no backend URL variable. -/
def scanMounted : ScanState := ScanState.init (some "tok") none

/-- Events of a rebind: a socket for `scan-1`, then `connectScanWebSocket`
for `scan-2` while the first socket is held. -/
def rebindScan : List ScanEvent :=
  [.connectScan (some "scan-1") none, .connectScan (some "scan-2") none]

/-- Events of a rebind followed by unmount: the `scan-1` socket is open when
`scan-2` replaces it, the close event of the `scan-1` socket arrives with code
1005, the `scan-2` socket opens, and the component unmounts. -/
def rebindThenUnmount : List ScanEvent :=
  [.connectScan (some "scan-1") none, .wsOpen 0, .connectScan (some "scan-2") none,
   .wsClose 0 1005, .wsOpen 1, .unmount]

/-- Events of a rebind in which the `scan-2` socket opens before the close
event of the `scan-1` socket arrives, followed by unmount. -/
def rebindOpenFirstThenUnmount : List ScanEvent :=
  [.connectScan (some "scan-1") none, .wsOpen 0, .connectScan (some "scan-2") none,
   .wsOpen 1, .unmount]

/-- The state of `scanRun` after the events, or the start state when the run
ends with an error. -/
def scanRunD (s : ScanState) (es : List ScanEvent) : ScanState :=
  match scanRun s es with
  | .ok s' => s'
  | .error _ => s

/-- Scan sockets on which `close()` has never been called, by handle. -/
def unclosedScanSockets (s : ScanState) : List Nat :=
  (List.range s.sockets.length).filter fun i =>
    match s.sockets[i]? with
    | some w => w.closeCalls.isEmpty
    | none => false

/-- The armed timers of the scan controller, by handle. -/
def armedScanTimers (s : ScanState) : List Nat :=
  (List.range s.timers.length).filter fun i =>
    match s.timers[i]? with
    | some t => t.armed
    | none => false

/-- The component holding a socket for `scan-1`. -/
def holdingScanOne : ScanState := scanRunD scanMounted [.connectScan (some "scan-1") none]

/-- No timer of the scan controller is a reconnect timeout. -/
def NoReconnectTimer (s : ScanState) : Prop :=
  ∀ (i : Nat) (t : Timer), s.timers[i]? = some t → t.kind ≠ TimerKind.reconnect

/-- Events of three successive scans in which the close event of the first
socket arrives between the second and the third call of
`connectScanWebSocket`. -/
def threeScans : List ScanEvent :=
  [.connectScan (some "scan-1") none, .connectScan (some "scan-2") none,
   .wsClose 0 1005, .connectScan (some "scan-3") none]

/-! ## Scan state of `src/pages/RepositoryDetail.js`: `fetchData`, `executeScan`
and the `onmessage` handler of the scan socket -/

/-- A scan as the component reads it: `id`, `status` and `progress`; the other
fields of a scan record are not read by the code embedded here. -/
structure ScanRecord where
  id : Option String
  status : String
  progress : Option Nat
  deriving DecidableEq, Repr

/-- The result of `api.startGitHubScan`: the fields `success` and `scan_id`. -/
structure ScanStartResult where
  success : Bool
  scan_id : Option String
  deriving DecidableEq, Repr

/-- The part of the component state that `fetchData`, `executeScan` and the
scan socket touch: the scan socket (`sock`), the React state `loading`,
`scanning`, `scanProgress`, `showScanDialog` and `scans` (lines 189-203), the
texts passed to `toast`, and the number of `fetchData()` calls started by a
handler.  The state declarations of lines 185-211 have no `currentScanId`. -/
structure DetailState where
  sock : ScanState
  loading : Bool
  scanning : Bool
  scanProgress : Nat
  showScanDialog : Bool
  scans : List ScanRecord
  toasts : List String
  fetches : Nat
  deriving DecidableEq, Repr

/-- The component at mount (lines 189-203). -/
def DetailState.init (authToken backendUrlEnv : Option String) : DetailState :=
  { sock := ScanState.init authToken backendUrlEnv
    loading := true
    scanning := false
    scanProgress := 0
    showScanDialog := false
    scans := []
    toasts := []
    fetches := 0 }

/-- The call `setCurrentScanId(value)` of lines 257, 315 and 420.  The
identifier `setCurrentScanId` is declared nowhere in the file (there is no
`useState` for it, no import and no parameter of that name), so evaluating the
call throws a `ReferenceError` and the state is as before the call. -/
def setCurrentScanId (_s : DetailState) (_value : Option String) : Except String DetailState :=
  .error "ReferenceError: setCurrentScanId is not defined"

/-- JavaScript `n || 10` for a number or `undefined`. -/
def progressOr10 : Option Nat → Nat
  | some 0 => 10
  | some n => n
  | none => 10

/-- The `try` block of `fetchData` after the `await` (lines 242-260), given the
scans returned by the API: the state when the block is left, and whether it
completed or threw.  The setters of lines 242-247 write state that nothing
embedded here reads. -/
def fetchDataTry (s : DetailState) (scanData : List ScanRecord) :
    DetailState × Except String Unit :=
  let s1 : DetailState := { s with scans := scanData }
  match scanData.find? (fun r => r.status == "running" || r.status == "pending") with
  | none => (s1, .ok ())
  | some runningScan =>
    let s2 : DetailState := { s1 with scanning := true }
    let s3 : DetailState := { s2 with scanProgress := progressOr10 runningScan.progress }
    match setCurrentScanId s3 runningScan.id with
    | .error e => (s3, .error e)
    | .ok s4 => (s4, .ok ())

/-- Source `fetchData` (lines 232-266) from the point where the `await` of line
234 settles: `apiResult` is `none` when `Promise.all` rejects and the list of
scans otherwise.  The `catch` shows a toast, the `finally` clears `loading`. -/
def fetchData (s : DetailState) (apiResult : Option (List ScanRecord)) : DetailState :=
  let afterTry : DetailState × Except String Unit :=
    match apiResult with
    | none => (s, .error "request failed")
    | some scanData => fetchDataTry s scanData
  let afterCatch : DetailState :=
    match afterTry with
    | (s1, .ok _) => s1
    | (s1, .error _) => { s1 with toasts := s1.toasts ++ ["Failed to load repository details"] }
  { afterCatch with loading := false }

/-- The scan socket as lines 285-287 of `connectScanWebSocket` leave it: the
state in which an error of the constructor at line 289 is thrown. -/
def closeHeldScanSocket (s : ScanState) : ScanState :=
  match s.scanWsRef with
  | none => s
  | some h =>
    match closeSocket s.sockets h none none with
    | .error _ => s
    | .ok socks => { s with sockets := socks }

/-- Lines 406-408 of `executeScan`, before the `await`. -/
def executeScanStart (s : DetailState) : DetailState :=
  { s with showScanDialog := false, scanning := true, scanProgress := 5 }

/-- The `try` block of `executeScan` after the `await` (lines 415-434), given
the result of the API: the state when the block is left, and whether it
completed or threw. -/
def executeScanTry (s : DetailState) (result : ScanStartResult)
    (ctorThrows : Option String) : DetailState × Except String Unit :=
  if result.success then
    let s1 : DetailState :=
      { s with toasts := s.toasts ++ ["Scan started! You'll be notified when complete."] }
    let s2 : DetailState := { s1 with scanProgress := 10 }
    match setCurrentScanId s2 result.scan_id with
    | .error e => (s2, .error e)
    | .ok s3 =>
      match connectScanWebSocket s3.sock result.scan_id ctorThrows with
      | .error e => ({ s3 with sock := closeHeldScanSocket s3.sock }, .error e)
      | .ok sock =>
        ({ s3 with
            sock := sock
            scans := ⟨result.scan_id, "running", some 10⟩ :: s3.scans },
         .ok ())
  else (s, .ok ())

/-- Source `executeScan` (lines 405-439) from the point where the `await` of
line 413 settles.  `apiResult` is the result of `api.startGitHubScan`, or, when
the request is rejected, the `detail` text of the error response if it has one.
The `catch` of line 435 also receives what the `try` block throws; such an
error has no `response`, so the toast shows the default text. -/
def executeScanResume (s : DetailState) (apiResult : Except (Option String) ScanStartResult)
    (ctorThrows : Option String) : DetailState :=
  let afterTry : DetailState × Except (Option String) Unit :=
    match apiResult with
    | .error detail => (s, .error detail)
    | .ok result =>
      match executeScanTry s result ctorThrows with
      | (s1, .ok _) => (s1, .ok ())
      | (s1, .error _) => (s1, .error none)
  match afterTry with
  | (s1, .ok _) => s1
  | (s1, .error detail) =>
    { s1 with
      scanning := false
      toasts := s1.toasts ++ [if truthy detail then detail.getD "" else "Failed to start scan"] }

/-- Source `executeScan`, with nothing else happening during the `await`. -/
def executeScan (s : DetailState) (apiResult : Except (Option String) ScanStartResult)
    (ctorThrows : Option String) : DetailState :=
  executeScanResume (executeScanStart s) apiResult ctorThrows

/-- JavaScript `v.key` for a value `v` that came out of `JSON.parse` or is
`undefined` (`none`): reading a property of `undefined` or `null` throws a
`TypeError`; an object yields the field or `undefined`; for the keys read here
a boolean, number, string or array yields `undefined`. -/
def jsProp (v : Option Json) (key : String) : Except String (Option Json) :=
  match v with
  | none => .error "TypeError"
  | some .null => .error "TypeError"
  | some (.obj fields) => .ok (fields.lookup key)
  | some _ => .ok none

/-- JavaScript `v?.key`: `undefined` when `v` is `undefined` or `null`. -/
def jsOptProp (v : Option Json) (key : String) : Option Json :=
  match v with
  | some (.obj fields) => fields.lookup key
  | _ => none

/-- The text of `notification.message || 'Scan completed!'` (line 317) for a
message that is a string or absent; a truthy message that is not a string is
handed to the toast as it is, and stands here as the default text. -/
def completedText (message : Option Json) : String :=
  match message with
  | some (.str m) => if m = "" then "Scan completed!" else m
  | _ => "Scan completed!"

/-- A call `setCurrentScanId(value)` in a run of the module in which the
identifier resolves (`resolves = true`) or does not.  The sources declare it
nowhere: that is `resolves = false`, the definition `setCurrentScanId` above.
Where it resolves it is the setter of a state `currentScanId`, which no code
of the component reads (the name occurs besides the three calls only in the
comment of line 355): the call returns and the embedded state is as before. -/
def setCurrentScanIdIn (resolves : Bool) (s : DetailState) (value : Option String) :
    Except String DetailState :=
  if resolves then .ok s else setCurrentScanId s value

/-- The `try` block of `executeScan` after the `await` (lines 415-434), as
`executeScanTry`, with the call of line 420 made in a run in which
`setCurrentScanId` resolves or does not. -/
def executeScanTryIn (resolves : Bool) (s : DetailState) (result : ScanStartResult)
    (ctorThrows : Option String) : DetailState × Except String Unit :=
  if result.success then
    let s1 : DetailState :=
      { s with toasts := s.toasts ++ ["Scan started! You'll be notified when complete."] }
    let s2 : DetailState := { s1 with scanProgress := 10 }
    match setCurrentScanIdIn resolves s2 result.scan_id with
    | .error e => (s2, .error e)
    | .ok s3 =>
      match connectScanWebSocket s3.sock result.scan_id ctorThrows with
      | .error e => ({ s3 with sock := closeHeldScanSocket s3.sock }, .error e)
      | .ok sock =>
        ({ s3 with
            sock := sock
            scans := ⟨result.scan_id, "running", some 10⟩ :: s3.scans },
         .ok ())
  else (s, .ok ())

/-- Source `executeScan` from the point where the `await` settles, as
`executeScanResume`, in a run in which `setCurrentScanId` resolves or does
not.  This is the only place that calls `connectScanWebSocket` (line 423), and
so the only place that binds the `onmessage` handler of a scan socket. -/
def executeScanResumeIn (resolves : Bool) (s : DetailState)
    (apiResult : Except (Option String) ScanStartResult) (ctorThrows : Option String) :
    DetailState :=
  let afterTry : DetailState × Except (Option String) Unit :=
    match apiResult with
    | .error detail => (s, .error detail)
    | .ok result =>
      match executeScanTryIn resolves s result ctorThrows with
      | (s1, .ok _) => (s1, .ok ())
      | (s1, .error _) => (s1, .error none)
  match afterTry with
  | (s1, .ok _) => s1
  | (s1, .error detail) =>
    { s1 with
      scanning := false
      toasts := s1.toasts ++ [if truthy detail then detail.getD "" else "Failed to start scan"] }

/-- The `try` block of the scan socket's `ws.onmessage` (lines 303-323) in the
closure of `connectScanWebSocket(scanId)` of the component for repository `id`,
in a run in which `setCurrentScanId` resolves or does not: the state when the
block is left, and whether it completed or threw. -/
def scanOnmessageTry (resolves : Bool) (jsonParse : String → Except String Json)
    (id scanId : String) (s : DetailState) (text : String) :
    DetailState × Except String Unit :=
  match jsonParse text with
  | .error e => (s, .error e)
  | .ok data =>
    match jsProp (some data) "type" with
    | .error e => (s, .error e)
    | .ok ty =>
      if isString ty "pong" || isString ty "connected" then (s, .ok ())
      else if isString ty "scan_complete" then
        match jsProp (some data) "notification" with
        | .error e => (s, .error e)
        | .ok notification =>
          match jsProp notification "data" with
          | .error e => (s, .error e)
          | .ok ndata =>
            if isString (jsOptProp ndata "repository_id") id
                || isString (jsOptProp ndata "scan_id") scanId then
              let s1 : DetailState := { s with scanning := false }
              let s2 : DetailState := { s1 with scanProgress := 100 }
              match setCurrentScanIdIn resolves s2 none with
              | .error e => (s2, .error e)
              | .ok s3 =>
                match jsProp notification "message" with
                | .error e => (s3, .error e)
                | .ok message =>
                  ({ s3 with
                      toasts := s3.toasts ++ [completedText message]
                      fetches := s3.fetches + 1 },
                   .ok ())
            else (s, .ok ())
      else (s, .ok ())

/-- Source `ws.onmessage` of the scan socket (lines 302-327): the `catch` of
line 324 logs whatever the `try` block threw. -/
def scanOnmessage (resolves : Bool) (jsonParse : String → Except String Json)
    (id scanId : String) (s : DetailState) (text : String) : Except String DetailState :=
  match scanOnmessageTry resolves jsonParse id scanId s text with
  | (s1, .ok _) => .ok s1
  | (s1, .error _) => .ok s1

/-- The component of repository `repo-1`, mounted with the token `tok`. -/
def detailMounted : DetailState := DetailState.init (some "tok") none

/-- The component of repository `repo-1` in a run in which `setCurrentScanId`
resolves, after `executeScan` got the result `{success: true, scan_id:
"scan-1"}`, created the scan socket and bound its handlers, and the socket
opened. -/
def detailBound : DetailState :=
  let d : DetailState :=
    executeScanResumeIn true (executeScanStart detailMounted) (.ok ⟨true, some "scan-1"⟩) none
  { d with sock := scanRunD d.sock [.wsOpen 0] }

/-- The text `{"type":"scan_complete","notification":{"data":{"scan_id":"scan-1"}}}`. -/
def scanOneCompleteText : String :=
  "\x7b\"type\":\"scan_complete\",\"notification\":\x7b\"data\":\x7b\"scan_id\":\"scan-1\"\x7d\x7d\x7d"

/-- The object that `JSON.parse` returns for `scanOneCompleteText`. -/
def scanOneCompleteJson : Json :=
  .obj [("type", .str "scan_complete"),
        ("notification", .obj [("data", .obj [("scan_id", .str "scan-1")])])]

/-- What `JSON.parse` does on `scanOneCompleteText`; a `SyntaxError` for every
other text. -/
def scanOneParse (text : String) : Except String Json :=
  if text = scanOneCompleteText then .ok scanOneCompleteJson else .error "SyntaxError"

/-! ## Consecutive failures of the hook's connection -/

/-- The close event with code 1006 of the socket held in `wsRef`. -/
def failCurrent (s : State) : Except String State :=
  match s.wsRef with
  | none => .error "no connection"
  | some h => run s [.wsClose h 1006]

/-- The reconnect timer held in `reconnectTimeoutRef` fires, and the socket
constructor succeeds. -/
def fireReconnect (s : State) : Except String State :=
  match s.reconnectTimeoutRef with
  | none => .error "no reconnect timer"
  | some id => run s [.timerFires id none]

/-- The failure of the socket held in `wsRef` as the browser reports it: the
error event, then the close event with code 1006. -/
def failAttempt (s : State) : Except String State :=
  match s.wsRef with
  | none => .error "no connection"
  | some h => run s [.wsError h, .wsClose h 1006]

/-- The state right after the `n`-th close when every connection ends with
close code 1006 and no reconnect attempt reaches open.  The first close ends
the open connection of `s`; `errorFirst` tells whether the browser reports an
error event before it.  Before each later close the pending reconnect timer
fires and creates a socket; that socket never opens, and the browser reports
the failure of such a socket with an error event before the close event. -/
def afterFailures (errorFirst : Bool) : Nat → State → Except String State
  | 0, s => .ok s
  | 1, s => if errorFirst then failAttempt s else failCurrent s
  | n + 2, s =>
    match afterFailures errorFirst (n + 1) s with
    | .error e => .error e
    | .ok t =>
      match fireReconnect t with
      | .error e => .error e
      | .ok u => failAttempt u

/-- A reconnect timeout of 3000 ms that has fired. -/
def spentReconnect : Timer := ⟨.reconnect, 3000, false⟩

/-- A reconnect timeout of 3000 ms that is pending. -/
def armedReconnect : Timer := ⟨.reconnect, 3000, true⟩

/-- What holds right after close number `j + 1` of a run of failures that
started in `s`, for `j < 5`; `err` is the value of `connectionError`. -/
def FailureInv (s : State) (j : Nat) (err : Option String) (t : State) : Prop :=
  t.reconnectAttempts = j + 1 ∧
  t.timers = timersAfterPingClear s ++ List.replicate j spentReconnect ++ [armedReconnect] ∧
  t.reconnectTimeoutRef = some (s.timers.length + j) ∧
  t.pingIntervalRef = none ∧
  t.authToken = s.authToken ∧ t.backendUrlEnv = s.backendUrlEnv ∧ t.scanIdRef = s.scanIdRef ∧
  t.connectionError = err

/-- The value of `connectionError` right after the first close of a run of
failures that started in `s`. -/
def errorAfterFirstClose (errorFirst : Bool) (s : State) : Option String :=
  if errorFirst then some "Connection error" else s.connectionError

/-- Events that end in an open connection beside a reconnect timer that nothing
refers to any more: socket 0 is open when `connect()` replaces it, its close
event arrives with code 1005 and arms timer 1, the replacing socket 1 fails and
arms timer 2, `disconnect()` cancels timer 2 only, and the hook connects again
and socket 2 opens. -/
def leakedTimerThenOpen : List Event :=
  [.connect none, .wsOpen 0, .connect none, .wsClose 0 1005, .wsError 1, .wsClose 1 1006,
   .disconnect, .connect none, .wsOpen 2]

/-- The hook after `leakedTimerThenOpen`. -/
def openWithLeakedTimer : State := runD mounted leakedTimerThenOpen

/-- A reconnect is pending after one failure, and the cookie has changed from
`tok` to `tok2` since the timer was scheduled. -/
def pendingWithNewToken : State :=
  { afterOneFailure with authToken := some "tok2" }

/-- A reconnect is pending after one failure, and the cookie has been removed
since the timer was scheduled. -/
def pendingWithoutToken : State :=
  { afterOneFailure with authToken := none }

/-- The hook after `replacedWhileOpen`. -/
def afterReplacedWhileOpen : State := runD mounted replacedWhileOpen

/-! ## `useScanWebSocket` (useWebSocket.js, lines 184-216) -/

/-- The callback `onScanComplete`; its argument is `data.notification`, which
is `undefined` (`none`) when the message has no such field. -/
structure ScanCallback where
  throwsOn : Option Json → Bool

/-- The state of `useScanWebSocket`: the inner `useWebSocket` (`ws`), the React
state `scanResult` (`some .null` is `null`, `none` is `undefined`), and the
values `onScanComplete` was called with. -/
structure ScanHookState where
  ws : State
  scanResult : Option Json
  completions : List (Option Json)

/-- Source `handleMessage` (lines 191-198): the state after the call, and
whether it returned or threw. -/
def handleMessage (onScanComplete : Option ScanCallback) (st : ScanHookState) (data : Json) :
    ScanHookState × Except String Unit :=
  match jsProp (some data) "type" with
  | .error e => (st, .error e)
  | .ok ty =>
    if isString ty "scan_complete" then
      match jsProp (some data) "notification" with
      | .error e => (st, .error e)
      | .ok notification =>
        let st1 : ScanHookState := { st with scanResult := notification }
        match onScanComplete with
        | none => (st1, .ok ())
        | some f =>
          ({ st1 with completions := st1.completions ++ [notification] },
           if f.throwsOn notification then .error "onScanComplete threw" else .ok ())
    else (st, .ok ())

/-- A message event of the socket of `useScanWebSocket`: the `ws.onmessage` of
the inner hook runs with `handleMessage` as its consumer (line 200). -/
def scanHookOnmessage (jsonParse : String → Except String Json)
    (onScanComplete : Option ScanCallback) (st : ScanHookState) (text : String) :
    Except String ScanHookState :=
  let consumer : Consumer :=
    ⟨fun data =>
      match (handleMessage onScanComplete st data).2 with
      | .ok _ => false
      | .error _ => true⟩
  match onmessage jsonParse (some consumer) st.ws text with
  | .error e => .error e
  | .ok (ws1, calls) =>
    .ok (calls.foldl (fun acc data => (handleMessage onScanComplete acc data).1)
      { st with ws := ws1 })

/-- A scan hook whose connection for scan `s1` is open. -/
def scanHookOpen : ScanHookState :=
  { ws := runD (State.init (some "tok") none (some "s1")) [.connect none, .wsOpen 0]
    scanResult := some .null
    completions := [] }

/-- An `onScanComplete` that never throws. -/
def quietScanCallback : ScanCallback := ⟨fun _ => false⟩

/-- A consumer that throws on every value. -/
def throwingConsumer : Consumer := ⟨fun _ => true⟩

/-- What `JSON.parse` does on the text `null`, and `sampleParse` elsewhere. -/
def sampleParseNull (text : String) : Except String Json :=
  if text = "null" then .ok .null else sampleParse text

/-! ## Basic facts -/

@[simp] theorem clearTimer_length (id : Nat) (ts : List Timer) :
    (clearTimer id ts).length = ts.length := by
  simp [clearTimer]

@[simp] theorem timersAfterPingClear_length (s : State) :
    (timersAfterPingClear s).length = s.timers.length := by
  unfold timersAfterPingClear
  cases s.pingIntervalRef <;> simp

/-! ## Reconnect policy: `ws.onclose` -/

/-- C1: in a state with `reconnectAttempts < 5`, a close event whose code is not
1000 makes `onclose` add exactly 1 to `reconnectAttempts` and create exactly one
timer: an armed reconnect timeout of 3000 ms, stored in `reconnectTimeoutRef`,
whose firing runs `connect()`. -/
theorem onclose_abnormal_schedules_one_reconnect (s : State) (code : Nat)
    (hlt : s.reconnectAttempts < 5) (hcode : code ≠ 1000) :
    (onclose s code).reconnectAttempts = s.reconnectAttempts + 1 ∧
    (onclose s code).timers = timersAfterPingClear s ++ [⟨.reconnect, 3000, true⟩] ∧
    (onclose s code).timers.length = s.timers.length + 1 ∧
    (onclose s code).reconnectTimeoutRef = some s.timers.length ∧
    ∀ c, fireTimer (onclose s code) s.timers.length c =
      connect { onclose s code with
        timers := clearTimer s.timers.length (onclose s code).timers } c := by
  have hcond : code ≠ 1000 ∧ s.reconnectAttempts < WS_MAX_RECONNECT_ATTEMPTS := ⟨hcode, hlt⟩
  have htimers : (onclose s code).timers =
      timersAfterPingClear s ++ [⟨.reconnect, 3000, true⟩] := by
    unfold onclose timersAfterPingClear
    cases h : s.pingIntervalRef <;> simp [hcond, WS_RECONNECT_INTERVAL]
  refine ⟨?_, htimers, ?_, ?_, ?_⟩
  · unfold onclose
    cases h : s.pingIntervalRef <;> simp [hcond]
  · simp [htimers]
  · unfold onclose
    cases h : s.pingIntervalRef <;> simp [hcond]
  · intro c
    have hget : (onclose s code).timers[s.timers.length]? = some ⟨.reconnect, 3000, true⟩ := by
      rw [htimers]
      simp [List.getElem?_append_right]
    unfold fireTimer
    rw [hget]

/-- C1 at `openAfterOneRetry` with close code 1006: the counter goes from 1 to
2 and the only timer is the new reconnect timeout. -/
theorem onclose_abnormal_schedules_one_reconnect_witness :
    openAfterOneRetry.reconnectAttempts < 5 ∧ 1006 ≠ 1000 ∧
    (onclose openAfterOneRetry 1006).reconnectAttempts = 2 ∧
    (onclose openAfterOneRetry 1006).timers = [⟨.reconnect, 3000, true⟩] ∧
    (onclose openAfterOneRetry 1006).reconnectTimeoutRef = some 0 :=
  have h := onclose_abnormal_schedules_one_reconnect openAfterOneRetry 1006
    (by decide) (by decide)
  ⟨by decide, by decide, h.1, h.2.1, h.2.2.2.1⟩

/-- C2: for every state, a close event with code 1000 creates no timer, arms
none of the existing ones, and leaves `reconnectAttempts` and
`reconnectTimeoutRef` as they were. -/
theorem onclose_normal_schedules_nothing (s : State) :
    (onclose s 1000).reconnectAttempts = s.reconnectAttempts ∧
    (onclose s 1000).timers = timersAfterPingClear s ∧
    (onclose s 1000).timers.length = s.timers.length ∧
    (onclose s 1000).reconnectTimeoutRef = s.reconnectTimeoutRef := by
  have htimers : (onclose s 1000).timers = timersAfterPingClear s := by
    unfold onclose timersAfterPingClear
    cases h : s.pingIntervalRef <;> simp
  refine ⟨?_, htimers, ?_, ?_⟩
  · unfold onclose
    cases h : s.pingIntervalRef <;> simp
  · simp [htimers]
  · unfold onclose
    cases h : s.pingIntervalRef <;> simp

/-- C3: in a state with `reconnectAttempts >= 5`, a close event with any code
creates no timer and leaves `reconnectAttempts` and `reconnectTimeoutRef` as
they were. -/
theorem onclose_exhausted_schedules_nothing (s : State) (code : Nat)
    (hge : 5 ≤ s.reconnectAttempts) :
    (onclose s code).reconnectAttempts = s.reconnectAttempts ∧
    (onclose s code).timers = timersAfterPingClear s ∧
    (onclose s code).timers.length = s.timers.length ∧
    (onclose s code).reconnectTimeoutRef = s.reconnectTimeoutRef := by
  have hcond : ¬ (code ≠ 1000 ∧ s.reconnectAttempts < WS_MAX_RECONNECT_ATTEMPTS) := by
    unfold WS_MAX_RECONNECT_ATTEMPTS
    omega
  have htimers : (onclose s code).timers = timersAfterPingClear s := by
    unfold onclose timersAfterPingClear
    cases h : s.pingIntervalRef <;> simp [hcond]
  refine ⟨?_, htimers, ?_, ?_⟩
  · unfold onclose
    cases h : s.pingIntervalRef <;> simp [hcond]
  · simp [htimers]
  · unfold onclose
    cases h : s.pingIntervalRef <;> simp [hcond]

/-- C3 after five failed connections in a row: the run reaches a state with
`reconnectAttempts = 5`, and the sixth close with code 1006 creates no timer. -/
theorem onclose_exhausted_schedules_nothing_witness :
    run mounted fiveFailures = .ok afterFiveFailures ∧
    5 ≤ afterFiveFailures.reconnectAttempts ∧
    (onclose afterFiveFailures 1006).reconnectAttempts = afterFiveFailures.reconnectAttempts ∧
    (onclose afterFiveFailures 1006).timers.length = afterFiveFailures.timers.length ∧
    armedReconnectTimers (onclose afterFiveFailures 1006) = [] :=
  have h := onclose_exhausted_schedules_nothing afterFiveFailures 1006 (by decide)
  ⟨by decide, by decide, h.1, h.2.2.1, by decide⟩

/-- C4 as stated fails: with `reconnectAttempts = 5` and `connectionError`
null, a close with code 1006 leaves `connectionError` null. -/
theorem onclose_exhausted_error_counterexample :
    run mounted fiveFailures = .ok afterFiveFailures ∧
    afterFiveFailures.reconnectAttempts = 5 ∧
    afterFiveFailures.connectionError = none ∧
    (onclose afterFiveFailures 1006).connectionError = none := by
  decide

/-- C4, amended: when a close event (with a non-1000 code, or any code) is
handled with `reconnectAttempts >= 5`, `onclose` leaves `connectionError` as it
was, so it is non-null afterwards exactly when it was non-null before the
close. -/
theorem onclose_exhausted_keeps_connectionError (s : State) (code : Nat)
    (hge : 5 ≤ s.reconnectAttempts) :
    (onclose s code).connectionError = s.connectionError ∧
    ((onclose s code).connectionError ≠ none ↔ s.connectionError ≠ none) := by
  have hcond : ¬ (code ≠ 1000 ∧ s.reconnectAttempts < WS_MAX_RECONNECT_ATTEMPTS) := by
    unfold WS_MAX_RECONNECT_ATTEMPTS
    omega
  have hkeep : (onclose s code).connectionError = s.connectionError := by
    unfold onclose
    cases h : s.pingIntervalRef <;> simp [hcond]
  exact ⟨hkeep, by rw [hkeep]⟩

/-- C4 amended, after five failed connections and a transport error event: the
error recorded by `onerror` is still there after the close. -/
theorem onclose_exhausted_keeps_connectionError_witness :
    5 ≤ (onerror afterFiveFailures).reconnectAttempts ∧
    (onclose (onerror afterFiveFailures) 1006).connectionError = some "Connection error" :=
  ⟨by decide,
   (onclose_exhausted_keeps_connectionError (onerror afterFiveFailures) 1006
      (by decide)).1⟩

/-! ## Open -/

/-- C5: for every prior state, handling the open event of a socket sets
`reconnectAttempts` to 0, `isConnected` to true and `connectionError` to null;
this holds for the handler and for the event as the event loop delivers it. -/
theorem onopen_resets (ws : Nat) (s : State) :
    (onopen ws s).reconnectAttempts = 0 ∧
    (onopen ws s).isConnected = true ∧
    (onopen ws s).connectionError = none ∧
    ∃ s', step s (.wsOpen ws) = .ok s' ∧
      s'.reconnectAttempts = 0 ∧ s'.isConnected = true ∧ s'.connectionError = none :=
  ⟨rfl, rfl, rfl, _, rfl, rfl, rfl, rfl⟩

/-! ## Disconnect -/

/-- The `close(1000, 'Intentional disconnect')` of line 149 never throws. -/
theorem closeSocket_intentional_ok (socks : List Socket) (h : Nat) :
    ∃ socks', closeSocket socks h (some 1000) (some "Intentional disconnect") = .ok socks' := by
  unfold closeSocket
  cases hs : socks[h]? with
  | none => exact ⟨_, rfl⟩
  | some w =>
    have hlen : "Intentional disconnect".utf8ByteSize ≤ 123 := by decide
    simp [Socket.close, hlen]

/-- What `disconnect` returns: it never throws, releases the three refs, sets
`isConnected` to false and keeps `reconnectAttempts`. -/
theorem disconnect_ok (s : State) :
    ∃ s', disconnect s = .ok s' ∧
      s'.reconnectTimeoutRef = none ∧ s'.pingIntervalRef = none ∧ s'.wsRef = none ∧
      s'.isConnected = false ∧ s'.reconnectAttempts = s.reconnectAttempts := by
  unfold disconnect
  cases h1 : s.reconnectTimeoutRef <;> cases h2 : s.pingIntervalRef <;>
    cases h3 : s.wsRef <;> simp [h1, h2, h3]
  all_goals
    rename_i h
    obtain ⟨socks', hs⟩ := closeSocket_intentional_ok s.sockets h
    simp [hs, h1, h2]

/-- On a state whose refs are released and whose `isConnected` is false,
`disconnect` changes nothing. -/
theorem disconnect_released (s : State) (h1 : s.reconnectTimeoutRef = none)
    (h2 : s.pingIntervalRef = none) (h3 : s.wsRef = none) (h4 : s.isConnected = false) :
    disconnect s = .ok s := by
  unfold disconnect
  simp [h1, h2, h3]
  cases s
  simp_all

/-- C6 as stated fails: after one abnormal close `reconnectAttempts` is 1, and
it is still 1 after `disconnect()`. -/
theorem disconnect_attempts_counterexample :
    run mounted oneFailure = .ok afterOneFailure ∧
    afterOneFailure.reconnectAttempts = 1 ∧
    (disconnect afterOneFailure).toOption.map (·.reconnectAttempts) = some 1 := by
  decide

/-- C6, amended: for every prior state, `disconnect()` returns and
`reconnectAttempts` has the value it had before the call. -/
theorem disconnect_keeps_reconnectAttempts (s : State) :
    ∃ s', disconnect s = .ok s' ∧ s'.reconnectAttempts = s.reconnectAttempts := by
  obtain ⟨s', h, _, _, _, _, hatt⟩ := disconnect_ok s
  exact ⟨s', h, hatt⟩

/-- C7: for every state `disconnect` returns without throwing; in the state it
returns the reconnect-timer ref, the ping-interval ref and the socket ref are
null and `isConnected` is false; and a second `disconnect` returns that same
state, so it calls `close` on no socket and clears no timer. -/
theorem disconnect_idempotent (s : State) :
    ∃ s', disconnect s = .ok s' ∧
      s'.reconnectTimeoutRef = none ∧ s'.pingIntervalRef = none ∧ s'.wsRef = none ∧
      s'.isConnected = false ∧
      disconnect s' = .ok s' := by
  obtain ⟨s', h, h1, h2, h3, h4, _⟩ := disconnect_ok s
  exact ⟨s', h, h1, h2, h3, h4, disconnect_released s' h1 h2 h3 h4⟩

/-- C8, the code at two failing inputs.  (1) `disconnect()` during the
handshake: the close event of the released socket carries code 1006, and
`onclose` arms a reconnect timer although no `connect()` was called after the
disconnect.  (2) Two reconnect timers are armed when `disconnect()` is called:
only the one held in `reconnectTimeoutRef` is cancelled, the other stays armed,
and its firing creates a new socket after the disconnect. -/
theorem disconnect_leaves_reconnect_armed :
    (run mounted disconnectWhileConnecting).toOption.map armedReconnectTimers = some [0] ∧
    (run mounted disconnectWhileConnecting).toOption.map (·.wsRef) = some none ∧
    (run mounted disconnectWithTwoTimers).toOption.map armedReconnectTimers = some [1] ∧
    (run mounted (disconnectWithTwoTimers ++ [.timerFires 1 none])).toOption.map
      (fun s => (s.wsRef, s.sockets.map (·.readyState)))
      = some (some 2, [.CLOSED, .CLOSED, .CONNECTING]) := by
  decide

/-! ## Connect and the endpoint URL -/

/-- C9: when `getCookie('auth_token')` returns nothing or the empty string,
`getWsUrl` returns null and, for every state and either outcome of the socket
constructor, `connect()` returns without throwing and leaves the whole state
unchanged: no socket is created or closed, and `isConnected`,
`connectionError`, `reconnectAttempts` and the refs keep their values. -/
theorem connect_without_token (s : State) (c : Option String)
    (h : s.authToken = none ∨ s.authToken = some "") :
    getWsUrl s = none ∧ connect s c = .ok s := by
  have hurl : getWsUrl s = none := by
    unfold getWsUrl
    rcases h with h | h <;> simp [h, truthy]
  exact ⟨hurl, by unfold connect; rw [hurl]⟩

/-- C9 at `openWithoutToken`: the open socket is neither closed nor replaced. -/
theorem connect_without_token_witness :
    (openWithoutToken.authToken = none ∨ openWithoutToken.authToken = some "") ∧
    getWsUrl openWithoutToken = none ∧
    connect openWithoutToken none = .ok openWithoutToken :=
  ⟨Or.inr rfl, connect_without_token openWithoutToken none (Or.inr rfl)⟩

theorem startsWith_https (H : String) : startsWith ("https://" ++ H) "https" = true := by
  simp [startsWith, String.data_append]

theorem startsWith_http (H : String) : startsWith ("http://" ++ H) "https" = false := by
  simp [startsWith, String.data_append]
  rfl

theorem stripHttpScheme_https (H : String) : stripHttpScheme ("https://" ++ H) = H := by
  have h : "https://".data.isPrefixOf ("https://" ++ H).data = true := by
    simp [String.data_append]
  simp [stripHttpScheme, h]

theorem stripHttpScheme_http (H : String) : stripHttpScheme ("http://" ++ H) = H := by
  have h : "https://".data.isPrefixOf ("http://" ++ H).data = false := by
    simp [String.data_append]
    rfl
  have h' : "http://".data.isPrefixOf ("http://" ++ H).data = true := by
    simp [String.data_append]
  simp [stripHttpScheme, h, h']

theorem truthy_https (H : String) : truthy (some ("https://" ++ H)) = true := by
  simp [truthy]
  intro h
  have := congrArg String.data h
  simp [String.data_append] at this

theorem truthy_http (H : String) : truthy (some ("http://" ++ H)) = true := by
  simp [truthy]
  intro h
  have := congrArg String.data h
  simp [String.data_append] at this

/-- C10: with a non-empty token `T` and backend base URL `https://H` the result
of `getWsUrl` is `wss://H/ws/notifications?token=T`, with `http://H` it is
`ws://H/ws/notifications?token=T`; `&scan_id=S` is appended when `scanIdRef`
holds a non-empty `S`, and nothing is appended when it is null or empty. -/
theorem getWsUrl_endpoint (s : State) (T H : String) (hT : T ≠ "")
    (htok : s.authToken = some T) :
    (s.backendUrlEnv = some ("https://" ++ H) →
      ((s.scanIdRef = none ∨ s.scanIdRef = some "") →
        getWsUrl s = some ("wss://" ++ H ++ "/ws/notifications?token=" ++ T)) ∧
      (∀ S : String, S ≠ "" → s.scanIdRef = some S →
        getWsUrl s
          = some ("wss://" ++ H ++ "/ws/notifications?token=" ++ T ++ "&scan_id=" ++ S))) ∧
    (s.backendUrlEnv = some ("http://" ++ H) →
      ((s.scanIdRef = none ∨ s.scanIdRef = some "") →
        getWsUrl s = some ("ws://" ++ H ++ "/ws/notifications?token=" ++ T)) ∧
      (∀ S : String, S ≠ "" → s.scanIdRef = some S →
        getWsUrl s
          = some ("ws://" ++ H ++ "/ws/notifications?token=" ++ T ++ "&scan_id=" ++ S))) := by
  have hwss : "wss" ++ "://" = "wss://" := by decide
  have hws : "ws" ++ "://" = "ws://" := by decide
  have htr : truthy (some T) = true := by simp [truthy, hT]
  have hnone : truthy none = false := rfl
  have hempty : truthy (some "") = false := by decide
  refine ⟨fun henv => ⟨fun hscan => ?_, fun S hS hscan => ?_⟩,
          fun henv => ⟨fun hscan => ?_, fun S hS hscan => ?_⟩⟩
  · unfold getWsUrl
    rcases hscan with hscan | hscan <;>
      simp [htok, henv, hscan, htr, truthy_https, startsWith_https, stripHttpScheme_https,
        hwss, hnone, hempty]
  · have hS' : truthy (some S) = true := by simp [truthy, hS]
    unfold getWsUrl
    simp [htok, henv, hscan, htr, hS', truthy_https, startsWith_https, stripHttpScheme_https,
      hwss]
  · unfold getWsUrl
    rcases hscan with hscan | hscan <;>
      simp [htok, henv, hscan, htr, truthy_http, startsWith_http, stripHttpScheme_http,
        hws, hnone, hempty]
  · have hS' : truthy (some S) = true := by simp [truthy, hS]
    unfold getWsUrl
    simp [htok, henv, hscan, htr, hS', truthy_http, startsWith_http, stripHttpScheme_http,
      hws]

/-- C10 at `mountedForScan`: token `tok`, backend `https://api.fixora.io`, scan
`s1`. -/
theorem getWsUrl_endpoint_witness :
    "tok" ≠ "" ∧ mountedForScan.authToken = some "tok" ∧
    mountedForScan.backendUrlEnv = some ("https://" ++ "api.fixora.io") ∧
    "s1" ≠ "" ∧ mountedForScan.scanIdRef = some "s1" ∧
    getWsUrl mountedForScan
      = some ("wss://" ++ "api.fixora.io" ++ "/ws/notifications?token=" ++ "tok"
          ++ "&scan_id=" ++ "s1") :=
  ⟨by decide, rfl, rfl, by decide, rfl,
   ((getWsUrl_endpoint mountedForScan "tok" "api.fixora.io" (by decide) rfl).1 rfl).2
     "s1" (by decide) rfl⟩

/-! ## Message routing: `ws.onmessage` -/

theorem isString_eq_true_iff (v : Option Json) (name : String) :
    isString v name = true ↔ v = some (.str name) := by
  unfold isString
  split
  · rename_i t
    simp
  · rename_i hne
    constructor
    · intro h
      cases h
    · intro h
      exact absurd h (hne name)

theorem isString_eq_false_of_ne (v : Option Json) (name : String)
    (h : v ≠ some (.str name)) : isString v name = false := by
  cases hb : isString v name with
  | false => rfl
  | true => exact absurd ((isString_eq_true_iff v name).1 hb) h

/-- What `onmessage` does with an application message, for a consumer `f`. -/
theorem onmessage_of_forwardable (jsonParse : String → Except String Json) (f : Consumer)
    (s : State) (text : String) (fields : List (String × Json))
    (hparse : jsonParse text = .ok (.obj fields))
    (hpong : fields.lookup "type" ≠ some (.str "pong"))
    (hconn : fields.lookup "type" ≠ some (.str "connected")) :
    onmessage jsonParse (some f) s text = .ok (s, [.obj fields]) := by
  have h1 := isString_eq_false_of_ne _ _ hpong
  have h2 := isString_eq_false_of_ne _ _ hconn
  unfold onmessage onmessageTry
  simp only [hparse, Json.typeField, h1, h2]
  cases f.throwsOn (.obj fields) <;> simp

/-- C11: with a registered consumer, for every inbound text that parses as an
object whose `type` is neither `pong` nor `connected`, `onmessage` calls the
consumer exactly once, with the parsed object itself, and leaves the state as
it was; a sequence of such messages reaches the consumer in arrival order. -/
theorem onmessage_forwards_application_messages
    (jsonParse : String → Except String Json) (f : Consumer) (s : State) :
    (∀ (text : String) (fields : List (String × Json)),
      jsonParse text = .ok (.obj fields) →
      fields.lookup "type" ≠ some (.str "pong") →
      fields.lookup "type" ≠ some (.str "connected") →
      onmessage jsonParse (some f) s text = .ok (s, [.obj fields])) ∧
    (∀ (texts : List String) (datas : List Json),
      List.Forall₂ (Forwardable jsonParse) texts datas →
      onmessages jsonParse (some f) s texts = .ok (s, datas)) := by
  refine ⟨fun text fields h1 h2 h3 => onmessage_of_forwardable jsonParse f s text fields h1 h2 h3,
    ?_⟩
  intro texts datas hall
  induction hall with
  | nil => rfl
  | cons hhead _ ih =>
    obtain ⟨fields, hd, hparse, hpong, hconn⟩ := hhead
    subst hd
    unfold onmessages
    rw [onmessage_of_forwardable jsonParse f s _ fields hparse hpong hconn]
    simp [ih]

/-- C11 on the scan-complete message of the specification, alone and followed
by a second copy between two control messages. -/
theorem onmessage_forwards_application_messages_witness :
    (onmessage sampleParse (some quietConsumer) openConnection scanCompleteText).toOption.map
        (fun r => r.2.length) = some 1 ∧
    onmessage sampleParse (some quietConsumer) openConnection scanCompleteText
      = .ok (openConnection, [scanCompleteJson]) ∧
    onmessages sampleParse (some quietConsumer) openConnection
        [scanCompleteText, scanCompleteText]
      = .ok (openConnection, [scanCompleteJson, scanCompleteJson]) :=
  have h := onmessage_forwards_application_messages sampleParse quietConsumer openConnection
  have hone : onmessage sampleParse (some quietConsumer) openConnection scanCompleteText
      = .ok (openConnection, [scanCompleteJson]) :=
    h.1 scanCompleteText _ rfl (by simp [List.lookup]) (by simp [List.lookup])
  have hfwd : Forwardable sampleParse scanCompleteText scanCompleteJson :=
    ⟨_, rfl, rfl, by simp [List.lookup], by simp [List.lookup]⟩
  ⟨by rw [hone]; rfl, hone,
   h.2 _ _ (List.Forall₂.cons hfwd (List.Forall₂.cons hfwd List.Forall₂.nil))⟩

/-- C12: for every inbound object whose `type` is `pong` or `connected`,
whatever its other fields and whether or not a consumer is registered,
`onmessage` calls no consumer and returns the state unchanged. -/
theorem onmessage_consumes_control_messages
    (jsonParse : String → Except String Json) (onMessage : Option Consumer) (s : State)
    (text : String) (fields : List (String × Json))
    (hparse : jsonParse text = .ok (.obj fields))
    (hctl : fields.lookup "type" = some (.str "pong") ∨
      fields.lookup "type" = some (.str "connected")) :
    onmessage jsonParse onMessage s text = .ok (s, []) := by
  unfold onmessage onmessageTry
  simp only [hparse, Json.typeField]
  rcases hctl with h | h
  · have hp := (isString_eq_true_iff (fields.lookup "type") "pong").2 h
    simp [hp]
  · have hc := (isString_eq_true_iff (fields.lookup "type") "connected").2 h
    cases hp : isString (List.lookup "type" fields) "pong" <;> simp [hc]

/-- C12 on a `pong` that carries an extra field. -/
theorem onmessage_consumes_control_messages_witness :
    sampleParse "\x7b\"type\":\"pong\",\"ts\":\"1\"\x7d" = .ok pongJson ∧
    onmessage sampleParse (some quietConsumer) openConnection
        "\x7b\"type\":\"pong\",\"ts\":\"1\"\x7d"
      = .ok (openConnection, []) :=
  ⟨rfl, onmessage_consumes_control_messages sampleParse (some quietConsumer) openConnection
    "\x7b\"type\":\"pong\",\"ts\":\"1\"\x7d" _ rfl (Or.inl (by simp [List.lookup]))⟩

/-- C13: for every inbound text on which `JSON.parse` throws, `onmessage`
returns normally, calls no consumer and returns the state unchanged, so
`isConnected`, `reconnectAttempts`, the timers and the socket ref keep their
values. -/
theorem onmessage_drops_malformed_text
    (jsonParse : String → Except String Json) (onMessage : Option Consumer) (s : State)
    (text : String) (e : String) (hparse : jsonParse text = .error e) :
    onmessage jsonParse onMessage s text = .ok (s, []) := by
  unfold onmessage onmessageTry
  simp [hparse]

/-- C13 on the text `not json` arriving on an open connection. -/
theorem onmessage_drops_malformed_text_witness :
    sampleParse "not json" = .error "SyntaxError" ∧
    onmessage sampleParse (some quietConsumer) openConnection "not json"
      = .ok (openConnection, []) ∧
    openConnection.isConnected = true :=
  ⟨rfl,
   onmessage_drops_malformed_text sampleParse (some quietConsumer) openConnection "not json"
     "SyntaxError" rfl,
   by decide⟩

/-! ## Sending, transport errors and the heartbeat -/

/-- C14: `sendMessage` returns true exactly when `wsRef` holds a socket whose
`readyState` is `OPEN`; then the JSON text of the message is appended, once, to
the frames sent on that socket and nothing else changes; when it returns false
the whole state, sockets included, is unchanged, so nothing is sent or kept. -/
theorem sendMessage_sends_iff_open (jsonStringify : Json → String) (s : State) (m : Json) :
    ((sendMessage jsonStringify s m).2 = true ↔
      ∃ h w, s.wsRef = some h ∧ s.sockets[h]? = some w ∧ w.readyState = .OPEN) ∧
    (∀ h w, s.wsRef = some h → s.sockets[h]? = some w → w.readyState = .OPEN →
      sendMessage jsonStringify s m
        = ({ s with
              sockets := s.sockets.set h { w with sent := w.sent ++ [jsonStringify m] } },
           true)) ∧
    ((sendMessage jsonStringify s m).2 = false → (sendMessage jsonStringify s m).1 = s) := by
  refine ⟨?_, ?_, ?_⟩
  · unfold sendMessage
    cases hr : s.wsRef with
    | none => simp
    | some h =>
      cases hw : s.sockets[h]? with
      | none => simp [hw]
      | some w =>
        by_cases ho : w.readyState = .OPEN
        · simp [hw, ho]
        · simp [hw, ho]
  · intro h w hr hw ho
    unfold sendMessage
    simp [hr, hw, ho]
  · unfold sendMessage
    cases hr : s.wsRef with
    | none => simp
    | some h =>
      cases hw : s.sockets[h]? with
      | none => simp [hw]
      | some w =>
        by_cases ho : w.readyState = .OPEN
        · simp [hw, ho]
        · simp [hw, ho]

/-- C14 on an open connection and on a hook that never connected. -/
theorem sendMessage_sends_iff_open_witness :
    (sendMessage sampleStringify openConnection (.obj [("type", .str "hello")])).2 = true ∧
    ((sendMessage sampleStringify openConnection (.obj [("type", .str "hello")])).1.sockets.map
      (·.sent)) = [["\x7b\"type\":\"hello\"\x7d"]] ∧
    (sendMessage sampleStringify mounted (.obj [("type", .str "hello")])).2 = false ∧
    (sendMessage sampleStringify mounted (.obj [("type", .str "hello")])).1 = mounted :=
  have h := sendMessage_sends_iff_open sampleStringify mounted (.obj [("type", .str "hello")])
  ⟨by decide, by decide, by decide, h.2.2 (by decide)⟩

/-- C15: handling a transport error event sets `connectionError` to the
non-null text `Connection error` and changes nothing else: `isConnected`,
`reconnectAttempts`, both timer refs, the socket ref, the timers and the
sockets are as before, so no reconnect is scheduled. -/
theorem onerror_only_records_error (s : State) (ws : Nat) :
    step s (.wsError ws) = .ok (onerror s) ∧
    onerror s = { s with connectionError := some "Connection error" } ∧
    (onerror s).connectionError ≠ none ∧
    (onerror s).isConnected = s.isConnected ∧
    (onerror s).reconnectAttempts = s.reconnectAttempts ∧
    (onerror s).reconnectTimeoutRef = s.reconnectTimeoutRef ∧
    (onerror s).pingIntervalRef = s.pingIntervalRef ∧
    (onerror s).wsRef = s.wsRef ∧
    (onerror s).timers = s.timers ∧
    (onerror s).sockets = s.sockets :=
  ⟨rfl, rfl, by simp [onerror], rfl, rfl, rfl, rfl, rfl, rfl, rfl⟩

/-- C16: the open event of socket `ws` creates one armed interval of 30000 ms
and stores it in `pingIntervalRef`; a tick of that interval runs the ping
closure of `ws`, which appends the single frame `{"type":"ping"}` to the frames
sent on `ws` when the `readyState` of `ws` is `OPEN`, and changes nothing when
it is not. -/
theorem heartbeat_pings_own_open_socket (ws : Nat) (s : State) :
    (onopen ws s).timers = s.timers ++ [⟨.ping ws, 30000, true⟩] ∧
    (onopen ws s).pingIntervalRef = some s.timers.length ∧
    (∀ c, fireTimer (onopen ws s) s.timers.length c = .ok (pingTick ws (onopen ws s))) ∧
    (∀ (t : State) (w : Socket), t.sockets[ws]? = some w → w.readyState = .OPEN →
      pingTick ws t
        = { t with
            sockets := t.sockets.set ws
              { w with sent := w.sent ++ ["\x7b\"type\":\"ping\"\x7d"] } }) ∧
    (∀ t : State, (∀ w, t.sockets[ws]? = some w → w.readyState ≠ .OPEN) → pingTick ws t = t) := by
  refine ⟨rfl, rfl, ?_, ?_, ?_⟩
  · intro c
    have hget : (onopen ws s).timers[s.timers.length]? = some ⟨.ping ws, 30000, true⟩ := by
      simp [onopen, PING_INTERVAL]
    unfold fireTimer
    rw [hget]
  · intro t w hw ho
    unfold pingTick
    simp [hw, ho]
  · intro t hall
    unfold pingTick
    cases hw : t.sockets[ws]? with
    | none => rfl
    | some w => simp [hall w hw]

/-- C16 on a run: after connect and open, the interval of socket 0 is armed
and its first tick sends one ping on socket 0. -/
theorem heartbeat_pings_own_open_socket_witness :
    (run mounted [.connect none, .wsOpen 0, .timerFires 0 none]).toOption.map
        (fun t => (t.timers, t.sockets.map (·.sent)))
      = some ([⟨.ping 0, 30000, true⟩], [["\x7b\"type\":\"ping\"\x7d"]]) ∧
    fireTimer (onopen 0 (runD mounted [.connect none])) 0 none
      = .ok (pingTick 0 (onopen 0 (runD mounted [.connect none]))) :=
  ⟨by decide,
   (heartbeat_pings_own_open_socket 0 (runD mounted [.connect none])).2.2.1 none⟩

/-! ## Invariants of the reachable states -/

/-- A run from a reachable state ends in a reachable state. -/
theorem run_reachable (es : List Event) : ∀ (s s' : State),
    Reachable s → run s es = .ok s' → Reachable s' := by
  induction es with
  | nil =>
    intro s s' hs h
    simp [run] at h
    exact h ▸ hs
  | cons e es ih =>
    intro s s' hs h
    unfold run at h
    cases hen : enabled s e with
    | false => simp [hen] at h
    | true =>
      cases hst : step s e with
      | error m => simp [hen, hst] at h
      | ok s1 =>
        simp [hen, hst] at h
        exact ih s1 s' (Reachable.step e hs hen hst) h

theorem closeSocket_unclosed (socks socks' : List Socket) (h : Nat) (code : Option Nat)
    (reason : Option String) (hc : closeSocket socks h code reason = .ok socks') :
    socks'.length = socks.length ∧
    ∀ i w', socks'[i]? = some w' → w'.closeCalls = [] →
      i ≠ h ∧ socks[i]? = some w' := by
  unfold closeSocket at hc
  cases hs : socks[h]? with
  | none =>
    simp [hs] at hc
    subst hc
    refine ⟨rfl, fun i w' hi _ => ⟨?_, hi⟩⟩
    intro hih
    subst hih
    simp [hs] at hi
  | some w =>
    simp only [hs] at hc
    cases hcl : w.close code reason with
    | error e => simp [hcl] at hc
    | ok w1 =>
      simp [hcl] at hc
      subst hc
      have hne : w1.closeCalls ≠ [] := by
        simp only [Socket.close] at hcl
        split_ifs at hcl
        simp only [Except.ok.injEq] at hcl
        subst hcl
        simp
      refine ⟨by simp, fun i w' hi hemp => ?_⟩
      by_cases hih : i = h
      · subst hih
        rw [List.getElem?_set_self'] at hi
        simp [hs] at hi
        subst hi
        exact absurd hemp hne
      · rw [List.getElem?_set_ne (Ne.symm hih)] at hi
        exact ⟨hih, hi⟩

theorem closeSocket_noargs_ok (socks : List Socket) (h : Nat) :
    ∃ socks', closeSocket socks h none none = .ok socks' := by
  unfold closeSocket
  cases hs : socks[h]? with
  | none => exact ⟨_, rfl⟩
  | some w => simp [Socket.close]

theorem connect_unclosedIsCurrent (s s' : State) (c : Option String)
    (hinv : UnclosedIsCurrent s) (hc : connect s c = .ok s') : UnclosedIsCurrent s' := by
  unfold connect at hc
  cases hu : getWsUrl s with
  | none =>
    simp [hu] at hc
    exact hc ▸ hinv
  | some url =>
    simp only [hu] at hc
    cases hr : s.wsRef with
    | none =>
      simp only [hr] at hc
      cases c with
      | some msg =>
        simp at hc
        subst hc
        intro i w hi hemp
        have := hinv i w hi hemp
        rw [hr] at this
        cases this
      | none =>
        simp at hc
        subst hc
        intro i w hi hemp
        by_cases hlt : i < s.sockets.length
        · simp [List.getElem?_append_left hlt] at hi
          have := hinv i w hi hemp
          simp [hr] at this
        · have hlen : i = s.sockets.length := by
            have := List.getElem?_eq_some.1 hi
            obtain ⟨hh, _⟩ := this
            simp at hh
            omega
          simp [hlen]
    | some h =>
      simp only [hr] at hc
      obtain ⟨socks', hcs⟩ := closeSocket_noargs_ok s.sockets h
      obtain ⟨hlen, hP⟩ := closeSocket_unclosed _ _ _ _ _ hcs
      simp only [hcs] at hc
      cases c with
      | some msg =>
        simp at hc
        subst hc
        intro i w hi hemp
        obtain ⟨hne, hold⟩ := hP i w hi hemp
        have := hinv i w hold hemp
        simp [hr] at this
        exact absurd this.symm hne
      | none =>
        simp at hc
        subst hc
        intro i w hi hemp
        by_cases hlt : i < socks'.length
        · simp [List.getElem?_append_left hlt] at hi
          obtain ⟨hne, hold⟩ := hP i w hi hemp
          have := hinv i w hold hemp
          simp [hr] at this
          exact absurd this.symm hne
        · have hlen : i = socks'.length := by
            have := List.getElem?_eq_some.1 hi
            obtain ⟨hh, _⟩ := this
            simp at hh
            omega
          simp [hlen]

theorem disconnect_sockets (s s' : State) (hd : disconnect s = .ok s') :
    s'.wsRef = none ∧
    ((s.wsRef = none ∧ s'.sockets = s.sockets) ∨
      ∃ h, s.wsRef = some h ∧
        closeSocket s.sockets h (some 1000) (some "Intentional disconnect") = .ok s'.sockets) := by
  unfold disconnect at hd
  cases h3 : s.wsRef with
  | none =>
    cases h1 : s.reconnectTimeoutRef <;> cases h2 : s.pingIntervalRef <;>
      simp [h1, h2, h3] at hd <;> subst hd <;> simp
  | some h =>
    obtain ⟨socks', hs⟩ := closeSocket_intentional_ok s.sockets h
    cases h1 : s.reconnectTimeoutRef <;> cases h2 : s.pingIntervalRef <;>
      simp [h1, h2, h3, hs] at hd <;> subst hd <;> simp [hs]

theorem disconnect_unclosedIsCurrent (s s' : State)
    (hinv : UnclosedIsCurrent s) (hd : disconnect s = .ok s') : UnclosedIsCurrent s' := by
  obtain ⟨hnone, hcase⟩ := disconnect_sockets s s' hd
  intro i w hi hemp
  rcases hcase with ⟨hr, hsock⟩ | ⟨h, hr, hcs⟩
  · rw [hsock] at hi
    have := hinv i w hi hemp
    rw [hr] at this
    cases this
  · obtain ⟨_, hP⟩ := closeSocket_unclosed _ _ _ _ _ hcs
    obtain ⟨hne, hold⟩ := hP i w hi hemp
    have := hinv i w hold hemp
    rw [hr] at this
    simp at this
    exact absurd this.symm hne

theorem setReadyState_unclosed (socks : List Socket) (h : Nat) (r : ReadyState) (i : Nat)
    (w' : Socket) (hi : (setReadyState socks h r)[i]? = some w') (hemp : w'.closeCalls = []) :
    ∃ w, socks[i]? = some w ∧ w.closeCalls = [] := by
  unfold setReadyState at hi
  rw [List.getElem?_modify] at hi
  cases hs : socks[i]? with
  | none => simp [hs] at hi
  | some w =>
    simp [hs] at hi
    refine ⟨w, rfl, ?_⟩
    by_cases hh : h = i
    · simp [hh] at hi
      subst hi
      simpa using hemp
    · simp [hh] at hi
      subst hi
      exact hemp

theorem onclose_sockets (s : State) (code : Nat) :
    (onclose s code).sockets = s.sockets ∧ (onclose s code).wsRef = s.wsRef := by
  unfold onclose
  cases h : s.pingIntervalRef <;> simp <;> split <;> simp

theorem pingTick_unclosedIsCurrent (s : State) (ws : Nat)
    (hinv : UnclosedIsCurrent s) : UnclosedIsCurrent (pingTick ws s) := by
  unfold pingTick
  cases hs : s.sockets[ws]? with
  | none => exact hinv
  | some w =>
    by_cases ho : w.readyState = .OPEN
    · simp only [ho, if_true]
      intro i w' hi hemp
      by_cases hh : ws = i
      · subst hh
        simp only [List.getElem?_set_self'] at hi
        simp [hs] at hi
        subst hi
        exact hinv ws w hs (by simpa using hemp)
      · simp only [List.getElem?_set_ne hh] at hi
        exact hinv i w' hi hemp
    · simp only [ho, if_false]
      exact hinv

theorem step_unclosedIsCurrent (s s' : State) (e : Event)
    (hinv : UnclosedIsCurrent s) (hst : step s e = .ok s') : UnclosedIsCurrent s' := by
  cases e with
  | connect c => exact connect_unclosedIsCurrent s s' c hinv hst
  | disconnect => exact disconnect_unclosedIsCurrent s s' hinv hst
  | wsOpen h =>
    simp [step] at hst
    subst hst
    intro i w hi hemp
    obtain ⟨w0, h0, he0⟩ := setReadyState_unclosed s.sockets h .OPEN i w hi hemp
    exact hinv i w0 h0 he0
  | wsError h =>
    simp [step] at hst
    subst hst
    exact hinv
  | wsClose h code =>
    simp [step] at hst
    subst hst
    intro i w hi hemp
    rw [(onclose_sockets _ code).1] at hi
    rw [(onclose_sockets _ code).2]
    obtain ⟨w0, h0, he0⟩ := setReadyState_unclosed s.sockets h .CLOSED i w hi hemp
    exact hinv i w0 h0 he0
  | timerFires id c =>
    simp only [step, fireTimer] at hst
    split at hst
    · exact connect_unclosedIsCurrent { s with timers := clearTimer id s.timers } s' c
        (fun i w hi he => hinv i w hi he) hst
    · simp at hst
      subst hst
      exact pingTick_unclosedIsCurrent s _ hinv
    · simp at hst
      subst hst
      exact hinv

theorem reachable_unclosedIsCurrent (s : State) (hr : Reachable s) : UnclosedIsCurrent s := by
  induction hr with
  | init a b c =>
    intro i w hi _
    simp [State.init] at hi
  | step e _ _ hst ih => exact step_unclosedIsCurrent _ _ e ih hst
  | env a b _ ih => exact fun i w hi he => ih i w hi he

/-- C17, the code at a failing input: socket 0 is open when `connect()` replaces
it, socket 1 opens, then the close event of socket 0 arrives.  Afterwards the
interval created for socket 0 is still armed although socket 0 is closed, and
the interval of the open socket 1 has been cancelled by the close of socket 0. -/
theorem ping_interval_outlives_replaced_socket :
    (run mounted replacedWhileOpen).toOption.map (fun s => s.sockets.map (·.readyState))
      = some [.CLOSED, .OPEN] ∧
    (run mounted replacedWhileOpen).toOption.map (·.timers)
      = some [⟨.ping 0, 30000, true⟩, ⟨.ping 1, 30000, false⟩, ⟨.reconnect, 3000, true⟩] ∧
    (run mounted replacedWhileOpen).toOption.map armedPingIntervals = some [(0, 0)] ∧
    (run mounted replacedWhileOpen).toOption.map (·.wsRef) = some (some 1) ∧
    (run mounted replacedWhileOpen).toOption.map (·.pingIntervalRef) = some none := by
  decide

/-- C18: in every reachable state a socket on which `close()` was never called
is the one held in `wsRef`, so there is at most one such socket; and whenever
`connect()` goes on to build a URL while `wsRef` holds a socket, it returns with
one more `close()` recorded on that socket, and a new socket, if the
constructor returns one, is appended after it and becomes `wsRef`. -/
theorem at_most_one_unclosed_socket (s : State) (hr : Reachable s) :
    (∀ (i : Nat) (w : Socket), s.sockets[i]? = some w → w.closeCalls = [] →
      s.wsRef = some i) ∧
    (∀ (i j : Nat) (wi wj : Socket), s.sockets[i]? = some wi → s.sockets[j]? = some wj →
      wi.closeCalls = [] → wj.closeCalls = [] → i = j) ∧
    (∀ (c : Option String) (h : Nat) (w : Socket) (url : String), s.wsRef = some h → s.sockets[h]? = some w → getWsUrl s = some url →
      ∃ s', connect s c = .ok s' ∧
        (s'.sockets[h]?.map (·.closeCalls)) = some (w.closeCalls ++ [⟨none, none⟩]) ∧
        (c = none → s'.sockets.length = s.sockets.length + 1 ∧
          s'.wsRef = some s.sockets.length ∧
          s'.sockets[s.sockets.length]? = some ⟨url, .CONNECTING, [], []⟩)) := by
  have hinv := reachable_unclosedIsCurrent s hr
  refine ⟨hinv, ?_, ?_⟩
  · intro i j wi wj hi hj hei hej
    have h1 := hinv i wi hi hei
    have h2 := hinv j wj hj hej
    rw [h1] at h2
    exact Option.some.inj h2
  · intro c h w url hr' hw hurl
    have hlt : h < s.sockets.length := (List.getElem?_eq_some.1 hw).1
    have hcs : closeSocket s.sockets h none none
        = .ok (s.sockets.set h
            { w with
              closeCalls := w.closeCalls ++ [⟨none, none⟩]
              readyState :=
                match w.readyState with
                | .CONNECTING => .CLOSING
                | .OPEN => .CLOSING
                | r => r }) := by
      simp [closeSocket, hw, Socket.close]
    unfold connect
    simp only [hurl, hr', hcs]
    cases c with
    | some msg =>
      refine ⟨_, rfl, ?_, ?_⟩
      · simp [List.getElem?_set_self hlt]
      · intro hc
        cases hc
    | none =>
      refine ⟨_, rfl, ?_, ?_⟩
      · simp [List.getElem?_append_left, hlt, List.getElem?_set_self hlt]
      · intro _
        simp

/-- C18 after an open socket was replaced by a second `connect()`: the state is
reachable, socket 1 is the only socket without a `close()` call, and it is the
one in `wsRef`. -/
theorem at_most_one_unclosed_socket_witness :
    Reachable afterReplaceOnce ∧
    unclosedSockets afterReplaceOnce = [1] ∧
    afterReplaceOnce.wsRef = some 1 :=
  have hreach : Reachable afterReplaceOnce :=
    run_reachable replaceOnce mounted afterReplaceOnce (Reachable.init _ _ _) (by decide)
  ⟨hreach, by decide,
   (at_most_one_unclosed_socket afterReplaceOnce hreach).1 1
     ⟨"ws://localhost:8000/ws/notifications?token=tok", .CONNECTING, [], []⟩
     (by decide) rfl⟩

/-! ## The scan socket of RepositoryDetail -/

theorem clearTimer_kind (id i : Nat) (ts : List Timer) (t : Timer)
    (h : (clearTimer id ts)[i]? = some t) : ∃ t0, ts[i]? = some t0 ∧ t0.kind = t.kind := by
  unfold clearTimer at h
  rw [List.getElem?_modify] at h
  cases hs : ts[i]? with
  | none => simp [hs] at h
  | some t0 =>
    simp [hs] at h
    refine ⟨t0, rfl, ?_⟩
    by_cases hh : id = i
    · simp [hh] at h
      subst h
      rfl
    · simp [hh] at h
      subst h
      rfl

theorem connectScanWebSocket_timers (s s' : ScanState) (scanId c : Option String)
    (h : connectScanWebSocket s scanId c = .ok s') : s'.timers = s.timers := by
  unfold connectScanWebSocket at h
  split at h
  · cases h
    rfl
  · cases hr : s.scanWsRef with
    | none =>
      cases c with
      | some msg => simp [hr] at h
      | none =>
        simp [hr] at h
        subst h
        rfl
    | some r =>
      obtain ⟨socks', hcs⟩ := closeSocket_noargs_ok s.sockets r
      cases c with
      | some msg => simp [hr, hcs] at h
      | none =>
        simp [hr, hcs] at h
        subst h
        rfl

theorem scanStep_noReconnectTimer (s s' : ScanState) (e : ScanEvent)
    (hinv : NoReconnectTimer s) (hst : scanStep s e = .ok s') : NoReconnectTimer s' := by
  cases e with
  | connectScan scanId c =>
    intro i t hi
    rw [connectScanWebSocket_timers s s' scanId c hst] at hi
    exact hinv i t hi
  | unmount =>
    simp only [scanStep, scanCleanup] at hst
    cases hr : s.scanWsRef with
    | none =>
      cases hp : s.pingIntervalRef with
      | none =>
        simp [hr, hp] at hst
        subst hst
        exact hinv
      | some id =>
        simp [hr, hp] at hst
        subst hst
        intro i t hi
        obtain ⟨t0, h0, hk⟩ := clearTimer_kind id i s.timers t hi
        rw [← hk]
        exact hinv i t0 h0
    | some r =>
      obtain ⟨socks', hcs⟩ := closeSocket_noargs_ok s.sockets r
      cases hp : s.pingIntervalRef with
      | none =>
        simp [hr, hp, hcs] at hst
        subst hst
        exact fun i t hi => hinv i t hi
      | some id =>
        simp [hr, hp, hcs] at hst
        subst hst
        intro i t hi
        obtain ⟨t0, h0, hk⟩ := clearTimer_kind id i s.timers t hi
        rw [← hk]
        exact hinv i t0 h0
  | wsOpen h =>
    simp [scanStep, scanOnopen] at hst
    subst hst
    intro i t hi
    by_cases hlt : i < s.timers.length
    · simp [List.getElem?_append_left hlt] at hi
      exact hinv i t hi
    · have hlen : i = s.timers.length := by
        obtain ⟨hh, _⟩ := List.getElem?_eq_some.1 hi
        simp at hh
        omega
      subst hlen
      simp at hi
      subst hi
      simp
  | wsError h =>
    simp [scanStep] at hst
    subst hst
    exact hinv
  | wsClose h code =>
    simp only [scanStep, scanOnclose] at hst
    cases hp : s.pingIntervalRef with
    | none =>
      simp [hp] at hst
      subst hst
      exact fun i t hi => hinv i t hi
    | some id =>
      simp [hp] at hst
      subst hst
      intro i t hi
      obtain ⟨t0, h0, hk⟩ := clearTimer_kind id i s.timers t hi
      rw [← hk]
      exact hinv i t0 h0
  | timerFires id =>
    simp only [scanStep] at hst
    split at hst
    · rename_i ws _ _
      simp at hst
      subst hst
      unfold scanPingTick
      cases hs : s.sockets[ws]? with
      | none => exact hinv
      | some w =>
        by_cases ho : w.readyState = .OPEN
        · simp only [ho, if_true]
          exact fun i t hi => hinv i t hi
        · simp only [ho, if_false]
          exact hinv
    · simp at hst
      subst hst
      exact hinv

theorem scanReachable_noReconnectTimer (s : ScanState) (hr : ScanReachable s) :
    NoReconnectTimer s := by
  induction hr with
  | init a b =>
    intro i t hi
    simp [ScanState.init] at hi
  | step e _ _ hst ih => exact scanStep_noReconnectTimer _ _ e ih hst
  | env a _ ih => exact fun i t hi => ih i t hi

/-- C19 as stated fails: when `scan-2` replaces `scan-1`, the one `close` call
on the `scan-1` socket has no code and no reason, so no 1000 is issued. -/
theorem rebind_close_code_counterexample :
    (scanRun scanMounted rebindScan).toOption.map (fun s => s.sockets.map (·.closeCalls))
      = some [[⟨none, none⟩], []] := by
  decide

/-- C19, amended: with a non-empty token and a non-empty new scan id, when
`connectScanWebSocket` is called while a scan socket is held and the
constructor succeeds, one `close()` without code or reason is recorded on the
held socket, exactly one socket is created, its URL ends with `&scan_id=` and
the new id, and it becomes `scanWsRef`; and in no reachable state of the scan
controller is there a reconnect timer. -/
theorem connectScanWebSocket_rebinds (s : ScanState) (T S2 : String) (h : Nat) (w : Socket)
    (hT : T ≠ "") (hS : S2 ≠ "") (htok : s.authToken = some T)
    (href : s.scanWsRef = some h) (hw : s.sockets[h]? = some w) :
    connectScanWebSocket s (some S2) none
      = .ok { s with
          sockets := s.sockets.set h
              { w with
                closeCalls := w.closeCalls ++ [⟨none, none⟩]
                readyState :=
                  match w.readyState with
                  | .CONNECTING => .CLOSING
                  | .OPEN => .CLOSING
                  | r => r }
            ++ [⟨scanWsUrl T s.backendUrlEnv S2, .CONNECTING, [], []⟩]
          scanWsRef := some s.sockets.length } ∧
    (∃ pre, scanWsUrl T s.backendUrlEnv S2 = pre ++ "&scan_id=" ++ S2) ∧
    (∀ t : ScanState, ScanReachable t →
      ∀ (i : Nat) (x : Timer), t.timers[i]? = some x → x.kind ≠ .reconnect) := by
  have hcs : closeSocket s.sockets h none none
      = .ok (s.sockets.set h
          { w with
            closeCalls := w.closeCalls ++ [⟨none, none⟩]
            readyState :=
              match w.readyState with
              | .CONNECTING => .CLOSING
              | .OPEN => .CLOSING
              | r => r }) := by
    simp [closeSocket, hw, Socket.close]
  have h1 : truthy (some T) = true := by simp [truthy, hT]
  have h2 : truthy (some S2) = true := by simp [truthy, hS]
  refine ⟨?_, ⟨_, rfl⟩, fun t ht => scanReachable_noReconnectTimer t ht⟩
  unfold connectScanWebSocket
  simp [htok, h1, h2, href, hcs]

/-- C19 amended, on `scan-2` replacing `scan-1`. -/
theorem connectScanWebSocket_rebinds_witness :
    "tok" ≠ "" ∧ "scan-2" ≠ "" ∧ holdingScanOne.authToken = some "tok" ∧
    holdingScanOne.scanWsRef = some 0 ∧
    (connectScanWebSocket holdingScanOne (some "scan-2") none).toOption.map
        (fun s => (s.sockets.map (·.url), s.scanWsRef))
      = some (["ws://localhost:8000/ws/notifications?token=tok&scan_id=scan-1",
               "ws://localhost:8000/ws/notifications?token=tok&scan_id=scan-2"], some 1) :=
  have h := connectScanWebSocket_rebinds holdingScanOne "tok" "scan-2" 0
    ⟨"ws://localhost:8000/ws/notifications?token=tok&scan_id=scan-1", .CONNECTING, [], []⟩
    (by decide) (by decide) rfl rfl (by decide)
  ⟨by decide, by decide, rfl, rfl, by rw [h.1]; decide⟩

/-- C20, the code at two failing inputs.  (1) `scan-2` replaces `scan-1`, the
close event of the `scan-1` socket arrives, the `scan-2` socket opens, the
component unmounts: the close event has set `scanWsRef` to null, so the cleanup
calls `close()` on nothing and the `scan-2` socket stays open.  (2) The
`scan-2` socket opens before the close event of the `scan-1` socket: the
interval of the `scan-1` socket is no longer in `pingIntervalRef` and stays
armed after the cleanup. -/
theorem unmount_leaves_scan_socket_open :
    (scanRun scanMounted rebindThenUnmount).toOption.map
        (fun s => s.sockets.map (·.readyState)) = some [.CLOSED, .OPEN] ∧
    (scanRun scanMounted rebindThenUnmount).toOption.map unclosedScanSockets = some [1] ∧
    (scanRun scanMounted rebindOpenFirstThenUnmount).toOption.map armedScanTimers
      = some [0] := by
  decide

/-- C21, the code at a failing input: three successive scans, with the close
event of the first socket delivered between the second and the third call.
The close event has set `scanWsRef` to null, so the third call calls `close()`
on nothing: the sockets of `scan-2` and `scan-3` are both live and neither has
had `close()` called on it. -/
theorem third_scan_leaves_second_socket_unclosed :
    (scanRun scanMounted threeScans).toOption.map unclosedScanSockets = some [1, 2] ∧
    (scanRun scanMounted threeScans).toOption.map (fun s => s.sockets.map (·.readyState))
      = some [.CLOSED, .CONNECTING, .CONNECTING] ∧
    (scanRun scanMounted threeScans).toOption.map (fun s => s.sockets.map (·.closeCalls))
      = some [[⟨none, none⟩], [], []] := by
  decide

/-! ## RepositoryDetail: `executeScan`, `fetchData` and the scan `onmessage` -/

/-- C22, the code on every successful result: after the `await`, `executeScan`
shows the toast and sets `scanProgress` to 10, then `setCurrentScanId` throws;
the `catch` sets `scanning` to false and `connectScanWebSocket` is never
called, so the scan socket is exactly as before.  Evaluated for the result
`{success: true, scan_id: "scan-1"}` on the mounted component: no socket
exists afterwards and `scanning` is false. -/
theorem executeScan_never_connects :
    (∀ (s : DetailState) (S c : Option String),
      (executeScanResume s (.ok ⟨true, S⟩) c).sock = s.sock ∧
      (executeScanResume s (.ok ⟨true, S⟩) c).scanning = false ∧
      (executeScanResume s (.ok ⟨true, S⟩) c).scanProgress = 10) ∧
    (executeScan detailMounted (.ok ⟨true, some "scan-1"⟩) none).sock.sockets = [] ∧
    (executeScan detailMounted (.ok ⟨true, some "scan-1"⟩) none).scanning = false ∧
    (executeScan detailMounted (.ok ⟨true, some "scan-1"⟩) none).toasts
      = ["Scan started! You'll be notified when complete.", "Failed to start scan"] := by
  refine ⟨fun s S c => ⟨rfl, rfl, rfl⟩, by decide, by decide, by decide⟩

/-- C23 as stated fails: `fetchData` finds the running scan `scan-9` while no
scan socket exists, and no socket exists afterwards. -/
theorem fetchData_running_scan_counterexample :
    detailMounted.sock.scanWsRef = none ∧
    (fetchData detailMounted (some [⟨some "scan-9", "running", some 40⟩])).sock.sockets = [] ∧
    (fetchData detailMounted (some [⟨some "scan-9", "running", some 40⟩])).sock.scanWsRef
      = none := by
  decide

/-- C23, amended: whatever `fetchData` receives, also a scan whose status is
`running` or `pending`, it opens no scan connection: the scan socket state
(refs, sockets, timers) is left exactly as it was. -/
theorem fetchData_opens_no_connection (s : DetailState) (apiResult : Option (List ScanRecord)) :
    (fetchData s apiResult).sock = s.sock := by
  unfold fetchData
  cases apiResult with
  | none => rfl
  | some scanData =>
    simp only [fetchDataTry, setCurrentScanId]
    cases scanData.find? (fun r => r.status == "running" || r.status == "pending") <;> rfl

theorem scanOnmessageTry_sock (resolves : Bool) (jsonParse : String → Except String Json)
    (id scanId : String) (s : DetailState) (text : String) :
    (scanOnmessageTry resolves jsonParse id scanId s text).1.sock = s.sock := by
  unfold scanOnmessageTry
  cases resolves <;>
    simp only [setCurrentScanIdIn, setCurrentScanId, Bool.false_eq_true, if_false, if_true] <;>
    repeat' split
  all_goals rfl

theorem scanOnmessage_eq (resolves : Bool) (jsonParse : String → Except String Json)
    (id scanId : String) (s : DetailState) (text : String) :
    scanOnmessage resolves jsonParse id scanId s text
      = .ok (scanOnmessageTry resolves jsonParse id scanId s text).1 := by
  unfold scanOnmessage
  split <;> rename_i h <;> rw [h]

/-- In a run in which `setCurrentScanId` does not resolve, `executeScan` is the
function of the sources and leaves the scan socket as it was. -/
theorem executeScanResumeIn_false (s : DetailState)
    (apiResult : Except (Option String) ScanStartResult) (c : Option String) :
    executeScanResumeIn false s apiResult c = executeScanResume s apiResult c ∧
    (executeScanResumeIn false s apiResult c).sock = s.sock := by
  refine ⟨rfl, ?_⟩
  unfold executeScanResumeIn executeScanTryIn
  cases apiResult with
  | error d => rfl
  | ok r => cases hr : r.success <;> simp [hr, setCurrentScanIdIn, setCurrentScanId]

/-- A handler is bound only in a run in which `setCurrentScanId` resolves. -/
theorem resolves_of_bound (resolves : Bool) (s0 : DetailState) (S : String)
    (hbound : (executeScanResumeIn resolves s0 (.ok ⟨true, some S⟩) none).sock.sockets.length
      = s0.sock.sockets.length + 1) : resolves = true := by
  cases resolves with
  | true => rfl
  | false =>
    rw [(executeScanResumeIn_false s0 _ none).2] at hbound
    omega

/-- C24: let the `onmessage` handler of the scan socket for repository `R` and
scan `S` be bound, that is, let `executeScan` have created the socket for `S`
(`hbound`; this needs a run in which line 420 returned).  Then in every state
`s`: a `scan_complete` message whose `notification.data.repository_id` is `R`
or whose `notification.data.scan_id` is `S` sets `scanning` to false and
`scanProgress` to 100, starts one `fetchData()` and leaves the scan socket as
it was (no `close`); a `scan_complete` message matching neither, an object of
any other type, and every text that does not parse to a value whose `type` is
`scan_complete`, leave the whole state unchanged; and for every text the
handler returns with the scan socket as it was. -/
theorem scan_onmessage_completes_scan (resolves : Bool)
    (jsonParse : String → Except String Json) (R S : String) (s0 s : DetailState)
    (hbound : (executeScanResumeIn resolves s0 (.ok ⟨true, some S⟩) none).sock.sockets.length
      = s0.sock.sockets.length + 1) :
    (∀ (text : String) (fields nfields dfields : List (String × Json)),
      jsonParse text = .ok (.obj fields) →
      fields.lookup "type" = some (.str "scan_complete") →
      fields.lookup "notification" = some (.obj nfields) →
      nfields.lookup "data" = some (.obj dfields) →
      (dfields.lookup "repository_id" = some (.str R) ∨
        dfields.lookup "scan_id" = some (.str S)) →
      ∃ s', scanOnmessage resolves jsonParse R S s text = .ok s' ∧
        s'.scanning = false ∧ s'.scanProgress = 100 ∧ s'.fetches = s.fetches + 1 ∧
        s'.sock = s.sock) ∧
    (∀ (text : String) (fields nfields : List (String × Json)),
      jsonParse text = .ok (.obj fields) →
      fields.lookup "type" = some (.str "scan_complete") →
      fields.lookup "notification" = some (.obj nfields) →
      jsOptProp (nfields.lookup "data") "repository_id" ≠ some (.str R) →
      jsOptProp (nfields.lookup "data") "scan_id" ≠ some (.str S) →
      scanOnmessage resolves jsonParse R S s text = .ok s) ∧
    (∀ (text : String) (fields : List (String × Json)),
      jsonParse text = .ok (.obj fields) →
      fields.lookup "type" ≠ some (.str "scan_complete") →
      scanOnmessage resolves jsonParse R S s text = .ok s) ∧
    (∀ text : String,
      (∀ data : Json, jsonParse text = .ok data →
        jsProp (some data) "type" ≠ .ok (some (.str "scan_complete"))) →
      scanOnmessage resolves jsonParse R S s text = .ok s) ∧
    (∀ text : String,
      ∃ s', scanOnmessage resolves jsonParse R S s text = .ok s' ∧ s'.sock = s.sock) := by
  have hres : resolves = true := resolves_of_bound resolves s0 S hbound
  subst hres
  refine ⟨?_, ?_, ?_, ?_, ?_⟩
  · intro text fields nfields dfields hparse hty hnot hdata hmatch
    have h1 : isString (some (Json.str "scan_complete")) "pong" = false := by decide
    have h2 : isString (some (Json.str "scan_complete")) "connected" = false := by decide
    have h3 : isString (some (Json.str "scan_complete")) "scan_complete" = true := by decide
    have hm : (isString (dfields.lookup "repository_id") R
        || isString (dfields.lookup "scan_id") S) = true := by
      rcases hmatch with h | h
      · simp [(isString_eq_true_iff _ R).2 h]
      · simp [(isString_eq_true_iff _ S).2 h]
    rw [scanOnmessage_eq]
    refine ⟨_, rfl, ?_⟩
    unfold scanOnmessageTry
    simp only [hparse, jsProp, hty, h1, h2, h3, hnot, hdata, jsOptProp, hm,
      setCurrentScanIdIn]
    simp
  · intro text fields nfields hparse hty hnot hrepo hscan
    have h1 : isString (some (Json.str "scan_complete")) "pong" = false := by decide
    have h2 : isString (some (Json.str "scan_complete")) "connected" = false := by decide
    have h3 : isString (some (Json.str "scan_complete")) "scan_complete" = true := by decide
    have hr := isString_eq_false_of_ne _ _ hrepo
    have hs := isString_eq_false_of_ne _ _ hscan
    rw [scanOnmessage_eq]
    unfold scanOnmessageTry
    simp only [hparse, jsProp, hty, h1, h2, h3, hnot, hr, hs]
    simp
  · intro text fields hparse hty
    have h3 := isString_eq_false_of_ne _ _ hty
    rw [scanOnmessage_eq]
    unfold scanOnmessageTry
    simp only [hparse, jsProp, h3]
    split <;> simp
  · intro text hother
    rw [scanOnmessage_eq]
    cases hparse : jsonParse text with
    | error e =>
      unfold scanOnmessageTry
      simp only [hparse]
    | ok data =>
      cases hty : jsProp (some data) "type" with
      | error e =>
        unfold scanOnmessageTry
        simp only [hparse, hty]
      | ok ty =>
        have hne : ty ≠ some (.str "scan_complete") := by
          intro heq
          exact hother data hparse (by rw [hty, heq])
        have h3 := isString_eq_false_of_ne _ _ hne
        unfold scanOnmessageTry
        simp only [hparse, hty, h3]
        split <;> simp
  · intro text
    exact ⟨_, scanOnmessage_eq true jsonParse R S s text,
      scanOnmessageTry_sock true jsonParse R S s text⟩

/-- C24 on the component of `repo-1` after `executeScan` bound the handler of
`scan-1`: the message `scanOneCompleteText` ends the scan and starts one
refresh; the socket is still open and no `close` was called on it. -/
theorem scan_onmessage_completes_scan_witness :
    (executeScanResumeIn true (executeScanStart detailMounted) (.ok ⟨true, some "scan-1"⟩)
        none).sock.sockets.length
      = (executeScanStart detailMounted).sock.sockets.length + 1 ∧
    detailBound.scanning = true ∧
    detailBound.sock.sockets.map (fun w => (w.readyState, w.closeCalls)) = [(.OPEN, [])] ∧
    (∃ s', scanOnmessage true scanOneParse "repo-1" "scan-1" detailBound scanOneCompleteText
        = .ok s' ∧
      s'.scanning = false ∧ s'.scanProgress = 100 ∧ s'.fetches = detailBound.fetches + 1 ∧
      s'.sock = detailBound.sock) :=
  have h := scan_onmessage_completes_scan true scanOneParse "repo-1" "scan-1"
    (executeScanStart detailMounted) detailBound (by decide)
  ⟨by decide, by decide, by decide,
   h.1 scanOneCompleteText _ _ _ rfl rfl rfl rfl (Or.inr rfl)⟩

/-! ## Reconnect attempts: endpoint, bound and consecutive failures -/

/-- When `getWsUrl` yields a URL and the constructor succeeds, `connect` appends
one connecting socket with that URL, makes it `wsRef` and changes nothing
besides the sockets. -/
theorem connect_of_url (s : State) (url : String) (hurl : getWsUrl s = some url) :
    ∃ socks', socks'.length = s.sockets.length ∧
      connect s none
        = .ok { s with
            sockets := socks' ++ [⟨url, .CONNECTING, [], []⟩]
            wsRef := some s.sockets.length } := by
  unfold connect
  simp only [hurl]
  cases hr : s.wsRef with
  | none => exact ⟨s.sockets, rfl, rfl⟩
  | some h =>
    obtain ⟨socks', hcs⟩ := closeSocket_noargs_ok s.sockets h
    obtain ⟨hlen, _⟩ := closeSocket_unclosed _ _ _ _ _ hcs
    refine ⟨socks', hlen, ?_⟩
    simp only [hcs, hlen]

theorem connect_reconnectAttempts (s s' : State) (c : Option String)
    (hc : connect s c = .ok s') : s'.reconnectAttempts = s.reconnectAttempts := by
  unfold connect at hc
  cases hu : getWsUrl s with
  | none =>
    simp [hu] at hc
    rw [← hc]
  | some url =>
    simp only [hu] at hc
    cases hr : s.wsRef with
    | none =>
      simp only [hr] at hc
      cases c <;> simp at hc <;> rw [← hc]
    | some h =>
      obtain ⟨socks', hcs⟩ := closeSocket_noargs_ok s.sockets h
      simp only [hr, hcs] at hc
      cases c <;> simp at hc <;> rw [← hc]

theorem onclose_reconnectAttempts_le (s : State) (code : Nat)
    (h : s.reconnectAttempts ≤ 5) : (onclose s code).reconnectAttempts ≤ 5 := by
  unfold onclose
  simp only [WS_MAX_RECONNECT_ATTEMPTS]
  cases hp : s.pingIntervalRef <;> simp only [] <;> split <;> simp only [] <;> omega

theorem pingTick_reconnectAttempts (ws : Nat) (s : State) :
    (pingTick ws s).reconnectAttempts = s.reconnectAttempts := by
  unfold pingTick
  cases s.sockets[ws]? with
  | none => rfl
  | some w => by_cases ho : w.readyState = .OPEN <;> simp [ho]

theorem step_reconnectAttempts_le (s s' : State) (e : Event)
    (h : s.reconnectAttempts ≤ 5) (hst : step s e = .ok s') : s'.reconnectAttempts ≤ 5 := by
  cases e with
  | connect c =>
    rw [connect_reconnectAttempts s s' c hst]
    exact h
  | disconnect =>
    obtain ⟨t, ht, _, _, _, _, hatt⟩ := disconnect_ok s
    simp only [step] at hst
    rw [ht] at hst
    cases hst
    rw [hatt]
    exact h
  | wsOpen ws =>
    simp [step, onopen] at hst
    subst hst
    simp
  | wsError ws =>
    simp [step, onerror] at hst
    subst hst
    exact h
  | wsClose ws code =>
    simp only [step, Except.ok.injEq] at hst
    subst hst
    exact onclose_reconnectAttempts_le _ code h
  | timerFires id c =>
    simp only [step, fireTimer] at hst
    split at hst
    · rw [connect_reconnectAttempts { s with timers := clearTimer id s.timers } s' c hst]
      exact h
    · simp at hst
      subst hst
      rw [pingTick_reconnectAttempts]
      exact h
    · simp at hst
      subst hst
      exact h

theorem onmessage_state (jsonParse : String → Except String Json) (onMessage : Option Consumer)
    (s : State) (text : String) :
    ∃ calls, onmessage jsonParse onMessage s text = .ok (s, calls) := by
  unfold onmessage
  split
  · exact ⟨_, rfl⟩
  · exact ⟨_, rfl⟩

/-- C28: in every reachable state `0 <= reconnectAttempts <= 5`, and a message
event, whatever its text and consumer, returns the state it was given, so
message events interleaved anywhere keep the bound. -/
theorem reconnectAttempts_bounded (s : State) (hr : Reachable s) :
    0 ≤ s.reconnectAttempts ∧ s.reconnectAttempts ≤ 5 ∧
    ∀ (jsonParse : String → Except String Json) (onMessage : Option Consumer) (text : String),
      ∃ calls, onmessage jsonParse onMessage s text = .ok (s, calls) := by
  refine ⟨Nat.zero_le _, ?_, fun jsonParse onMessage text =>
    onmessage_state jsonParse onMessage s text⟩
  induction hr with
  | init a b c => simp [State.init]
  | step e _ _ hst ih => exact step_reconnectAttempts_le _ _ e ih hst
  | env a b _ ih => exact ih

/-- C28 after five failed connections in a row: the state is reachable and
the counter has reached, and not passed, 5. -/
theorem reconnectAttempts_bounded_witness :
    Reachable afterFiveFailures ∧ afterFiveFailures.reconnectAttempts = 5 ∧
    afterFiveFailures.reconnectAttempts ≤ 5 :=
  have hreach : Reachable afterFiveFailures :=
    run_reachable fiveFailures mounted afterFiveFailures (Reachable.init _ _ _) (by decide)
  ⟨hreach, by decide, (reconnectAttempts_bounded afterFiveFailures hreach).2.1⟩

/-- C29, the code at a failing input: socket 0 is open when `connect()` replaces
it, socket 1 opens, then the close event of socket 0 arrives.  The run is
possible, `wsRef` holds socket 1, socket 1 is open and `sendMessage` on it
returns true, yet `isConnected` is false. -/
theorem isConnected_false_while_current_socket_open :
    run mounted replacedWhileOpen = .ok afterReplacedWhileOpen ∧
    afterReplacedWhileOpen.wsRef = some 1 ∧
    afterReplacedWhileOpen.sockets.map (·.readyState) = [.CLOSED, .OPEN] ∧
    afterReplacedWhileOpen.isConnected = false ∧
    (sendMessage sampleStringify afterReplacedWhileOpen (.obj [("type", .str "hello")])).2
      = true := by
  decide

/-- C30: for every inbound text and every consumer, `onmessage` returns without
throwing and returns the state it was given; a text that parses to `null` calls
no consumer; and when the consumer throws on an application message, the one
call that threw is all that happened. -/
theorem onmessage_never_throws (jsonParse : String → Except String Json) (s : State) :
    (∀ (onMessage : Option Consumer) (text : String),
      ∃ calls, onmessage jsonParse onMessage s text = .ok (s, calls)) ∧
    (∀ (onMessage : Option Consumer) (text : String), jsonParse text = .ok .null →
      onmessage jsonParse onMessage s text = .ok (s, [])) ∧
    (∀ (f : Consumer) (text : String) (fields : List (String × Json)),
      jsonParse text = .ok (.obj fields) → f.throwsOn (.obj fields) = true →
      fields.lookup "type" ≠ some (.str "pong") →
      fields.lookup "type" ≠ some (.str "connected") →
      onmessage jsonParse (some f) s text = .ok (s, [.obj fields])) := by
  refine ⟨fun onMessage text => onmessage_state jsonParse onMessage s text, ?_, ?_⟩
  · intro onMessage text hnull
    unfold onmessage onmessageTry
    simp [hnull, Json.typeField]
  · intro f text fields hparse _ hpong hconn
    exact onmessage_of_forwardable jsonParse f s text fields hparse hpong hconn

theorem clearTimer_last (l : List Timer) (a : Timer) :
    clearTimer l.length (l ++ [a]) = l ++ [{ a with armed := false }] := by
  unfold clearTimer
  induction l with
  | nil => rfl
  | cons x xs ih => simpa using ih

theorem onclose_of_abnormal (s : State) (code : Nat) (hcode : code ≠ 1000)
    (hlt : s.reconnectAttempts < 5) :
    onclose s code
      = { s with
          isConnected := false
          pingIntervalRef := none
          reconnectAttempts := s.reconnectAttempts + 1
          reconnectTimeoutRef := some s.timers.length
          timers := timersAfterPingClear s ++ [armedReconnect] } := by
  have hcond : code ≠ 1000 ∧ s.reconnectAttempts < WS_MAX_RECONNECT_ATTEMPTS := ⟨hcode, hlt⟩
  unfold onclose timersAfterPingClear
  cases hp : s.pingIntervalRef <;>
    simp [hcond, hp, armedReconnect, WS_RECONNECT_INTERVAL]

theorem onclose_of_exhausted (s : State) (code : Nat) (hge : 5 ≤ s.reconnectAttempts) :
    onclose s code
      = { s with
          isConnected := false
          pingIntervalRef := none
          timers := timersAfterPingClear s } := by
  have hcond : ¬ (code ≠ 1000 ∧ s.reconnectAttempts < WS_MAX_RECONNECT_ATTEMPTS) := by
    unfold WS_MAX_RECONNECT_ATTEMPTS
    omega
  unfold onclose timersAfterPingClear
  cases hp : s.pingIntervalRef <;> simp [hcond, hp]

theorem failCurrent_eq (s : State) (h : Nat) (w : Socket) (href : s.wsRef = some h)
    (hw : s.sockets[h]? = some w) (hne : w.readyState ≠ .CLOSED) :
    failCurrent s
      = .ok (onclose { s with sockets := setReadyState s.sockets h .CLOSED } 1006) := by
  unfold failCurrent
  simp [href, run, enabled, hw, hne, step]

theorem fireReconnect_eq (s : State) (id : Nat) (href : s.reconnectTimeoutRef = some id)
    (ht : s.timers[id]? = some armedReconnect) :
    fireReconnect s = connect { s with timers := clearTimer id s.timers } none := by
  unfold fireReconnect
  simp only [href, run, enabled, ht, step, fireTimer, armedReconnect]
  simp
  split <;> rename_i heq <;> rw [heq]

theorem getWsUrl_congr (t s : State) (h1 : t.authToken = s.authToken)
    (h2 : t.backendUrlEnv = s.backendUrlEnv) (h3 : t.scanIdRef = s.scanIdRef) :
    getWsUrl t = getWsUrl s := by
  unfold getWsUrl
  rw [h1, h2, h3]

theorem getWsUrl_isSome (s : State) (htok : truthy s.authToken = true) :
    ∃ url, getWsUrl s = some url := by
  unfold getWsUrl
  by_cases hs : truthy s.scanIdRef = true <;> simp [htok, hs]


theorem timersAfterPingClear_of_none (s : State) (h : s.pingIntervalRef = none) :
    timersAfterPingClear s = s.timers := by
  unfold timersAfterPingClear
  rw [h]

theorem failAttempt_eq (s : State) (h : Nat) (w : Socket) (href : s.wsRef = some h)
    (hw : s.sockets[h]? = some w) (hne : w.readyState ≠ .CLOSED) :
    failAttempt s
      = .ok (onclose { onerror s with sockets := setReadyState s.sockets h .CLOSED } 1006) := by
  unfold failAttempt
  simp [href, run, enabled, hw, hne, step, onerror]

theorem failure_first (s : State) (h : Nat) (w : Socket) (errorFirst : Bool)
    (href : s.wsRef = some h) (hw : s.sockets[h]? = some w) (hne : w.readyState ≠ .CLOSED)
    (hatt : s.reconnectAttempts = 0) :
    ∃ t, afterFailures errorFirst 1 s = .ok t ∧
      FailureInv s 0 (errorAfterFirstClose errorFirst s) t := by
  cases errorFirst with
  | false =>
    have h1 : afterFailures false 1 s
        = .ok (onclose { s with sockets := setReadyState s.sockets h .CLOSED } 1006) := by
      simp only [afterFailures, Bool.false_eq_true, if_false]
      exact failCurrent_eq s h w href hw hne
    refine ⟨_, h1, ?_⟩
    rw [onclose_of_abnormal _ 1006 (by decide) (by simp [hatt])]
    simp [FailureInv, hatt, errorAfterFirstClose]
    rfl
  | true =>
    have h1 : afterFailures true 1 s
        = .ok (onclose { onerror s with sockets := setReadyState s.sockets h .CLOSED }
            1006) := by
      simp only [afterFailures, if_true]
      exact failAttempt_eq s h w href hw hne
    refine ⟨_, h1, ?_⟩
    rw [onclose_of_abnormal _ 1006 (by decide) (by simp [hatt, onerror])]
    simp [FailureInv, hatt, errorAfterFirstClose, onerror]
    rfl

theorem failure_next (s t : State) (j : Nat) (err : Option String)
    (htok : truthy s.authToken = true) (hinv : FailureInv s j err t) (hj : j < 5) :
    ∃ u t', fireReconnect t = .ok u ∧ failAttempt u = .ok t' ∧
      (j + 1 < 5 → FailureInv s (j + 1) (some "Connection error") t') ∧
      (j + 1 = 5 →
        t'.reconnectAttempts = 5 ∧
        t'.timers = timersAfterPingClear s ++ List.replicate 5 spentReconnect ∧
        t'.reconnectTimeoutRef = some (s.timers.length + 4) ∧
        t'.connectionError = some "Connection error") := by
  obtain ⟨hatt, htim, href, hping, h1, h2, h3, _⟩ := hinv
  have hlen : (timersAfterPingClear s ++ List.replicate j spentReconnect).length
      = s.timers.length + j := by simp
  have hget : t.timers[s.timers.length + j]? = some armedReconnect := by
    rw [htim, ← hlen]
    exact List.getElem?_concat_length _ _
  have hclear : clearTimer (s.timers.length + j) t.timers
      = timersAfterPingClear s ++ List.replicate (j + 1) spentReconnect := by
    rw [htim, ← hlen, clearTimer_last, List.replicate_succ', List.append_assoc]
    rfl
  obtain ⟨url, hurl⟩ := getWsUrl_isSome s htok
  have hurl' : getWsUrl { t with timers := clearTimer (s.timers.length + j) t.timers }
      = some url := by
    rw [← hurl]
    exact getWsUrl_congr _ s h1 h2 h3
  obtain ⟨socks', hsl, hconn⟩ := connect_of_url _ url hurl'
  have hfire := fireReconnect_eq t (s.timers.length + j) href hget
  rw [hconn] at hfire
  have hu : ∃ u, fireReconnect t = .ok u ∧
      u.timers = timersAfterPingClear s ++ List.replicate (j + 1) spentReconnect ∧
      u.wsRef = some t.sockets.length ∧
      u.sockets[t.sockets.length]? = some ⟨url, .CONNECTING, [], []⟩ ∧
      u.reconnectAttempts = j + 1 ∧ u.pingIntervalRef = none ∧
      u.authToken = s.authToken ∧ u.backendUrlEnv = s.backendUrlEnv ∧
      u.scanIdRef = s.scanIdRef ∧
      u.reconnectTimeoutRef = some (s.timers.length + j) := by
    refine ⟨_, hfire, hclear, rfl, ?_, hatt, hping, h1, h2, h3, href⟩
    have hsl' : socks'.length = t.sockets.length := hsl
    rw [← hsl']
    exact List.getElem?_concat_length _ _
  obtain ⟨u, hfu, hut, huw, hus, hua, hup, hu1, hu2, hu3, hur⟩ := hu
  have hfail := failAttempt_eq u t.sockets.length ⟨url, .CONNECTING, [], []⟩ huw hus
    (by simp)
  have hT : timersAfterPingClear
      { onerror u with sockets := setReadyState u.sockets t.sockets.length .CLOSED }
      = u.timers :=
    timersAfterPingClear_of_none _ hup
  refine ⟨u, _, hfu, hfail, ?_, ?_⟩
  · intro hlt
    rw [onclose_of_abnormal _ 1006 (by decide) (by simp [hua, onerror]; omega), hT]
    simp [FailureInv, hua, hut, hu1, hu2, hu3, onerror]
  · intro heq
    have hj4 : j = 4 := by omega
    subst hj4
    rw [onclose_of_exhausted _ 1006 (by simp [hua, onerror]), hT]
    simp [hua, hut, hur, onerror]

theorem afterFailures_step (s t u t' : State) (errorFirst : Bool) (n : Nat)
    (ht : afterFailures errorFirst (n + 1) s = .ok t) (hfu : fireReconnect t = .ok u)
    (hft : failAttempt u = .ok t') : afterFailures errorFirst (n + 2) s = .ok t' := by
  simp only [afterFailures, ht, hfu, hft]

theorem afterFailures_fire_error (s t : State) (errorFirst : Bool) (n : Nat) (e : String)
    (ht : afterFailures errorFirst (n + 1) s = .ok t) (hfu : fireReconnect t = .error e) :
    afterFailures errorFirst (n + 2) s = .error e := by
  simp only [afterFailures, ht, hfu]

theorem afterFailures_inv (s : State) (h : Nat) (w : Socket) (errorFirst : Bool)
    (href : s.wsRef = some h) (hw : s.sockets[h]? = some w) (hne : w.readyState ≠ .CLOSED)
    (hatt : s.reconnectAttempts = 0) (htok : truthy s.authToken = true) :
    ∀ j, j < 5 → ∃ t, afterFailures errorFirst (j + 1) s = .ok t ∧
      FailureInv s j
        (if j = 0 then errorAfterFirstClose errorFirst s else some "Connection error") t := by
  intro j
  induction j with
  | zero =>
    intro _
    exact failure_first s h w errorFirst href hw hne hatt
  | succ j ih =>
    intro hj
    obtain ⟨t, ht, hinv⟩ := ih (by omega)
    obtain ⟨u, t', hfu, hft, hnext, _⟩ := failure_next s t j _ htok hinv (by omega)
    refine ⟨t', afterFailures_step s t u t' errorFirst j ht hfu hft, ?_⟩
    simpa using hnext (by omega)

theorem afterFailures_six (s : State) (h : Nat) (w : Socket) (errorFirst : Bool)
    (href : s.wsRef = some h) (hw : s.sockets[h]? = some w) (hne : w.readyState ≠ .CLOSED)
    (hatt : s.reconnectAttempts = 0) (htok : truthy s.authToken = true) :
    ∃ t, afterFailures errorFirst 6 s = .ok t ∧
      t.reconnectAttempts = 5 ∧
      t.timers = timersAfterPingClear s ++ List.replicate 5 spentReconnect ∧
      t.reconnectTimeoutRef = some (s.timers.length + 4) ∧
      t.connectionError = some "Connection error" := by
  obtain ⟨t, ht, hinv⟩ := afterFailures_inv s h w errorFirst href hw hne hatt htok 4 (by omega)
  obtain ⟨u, t', hfu, hft, _, hlast⟩ := failure_next s t 4 _ htok hinv (by omega)
  exact ⟨t', afterFailures_step s t u t' errorFirst 4 ht hfu hft, hlast rfl⟩

theorem afterFailures_error_succ (s : State) (errorFirst : Bool) (n : Nat) (e : String)
    (h : afterFailures errorFirst (n + 1) s = .error e) :
    afterFailures errorFirst (n + 2) s = .error e := by
  simp only [afterFailures, h]

theorem afterFailures_stuck (s : State) (h : Nat) (w : Socket) (errorFirst : Bool)
    (href : s.wsRef = some h) (hw : s.sockets[h]? = some w) (hne : w.readyState ≠ .CLOSED)
    (hatt : s.reconnectAttempts = 0) (htok : truthy s.authToken = true) :
    ∀ n, 7 ≤ n → ∃ e, afterFailures errorFirst n s = .error e := by
  obtain ⟨t, ht, _, htim, href6, _⟩ :=
    afterFailures_six s h w errorFirst href hw hne hatt htok
  have hget : t.timers[s.timers.length + 4]? = some spentReconnect := by
    have hlen : (timersAfterPingClear s ++ List.replicate 4 spentReconnect).length
        = s.timers.length + 4 := by simp
    rw [htim, ← hlen, List.replicate_succ', ← List.append_assoc]
    exact List.getElem?_concat_length _ _
  have hfire : fireReconnect t = .error "event not enabled" := by
    simp [fireReconnect, href6, run, enabled, hget, spentReconnect]
  have h7 : afterFailures errorFirst 7 s = .error "event not enabled" :=
    afterFailures_fire_error s t errorFirst 5 _ ht hfire
  intro n hn
  induction n with
  | zero => omega
  | succ n ih =>
    by_cases h7' : n + 1 = 7
    · exact ⟨_, by rw [h7']; exact h7⟩
    · obtain ⟨e, he⟩ := ih (by omega)
      obtain ⟨m, rfl⟩ : ∃ m, n = m + 1 := ⟨n - 1, by omega⟩
      exact ⟨e, afterFailures_error_succ s errorFirst m e he⟩

theorem timersAfterPingClear_disarmed (s : State)
    (honly : ∀ (i : Nat) (x : Timer), s.timers[i]? = some x → x.armed = true →
      s.pingIntervalRef = some i) :
    ∀ x ∈ timersAfterPingClear s, x.armed = false := by
  intro x hx
  obtain ⟨i, hi⟩ := List.mem_iff_getElem?.1 hx
  unfold timersAfterPingClear at hi
  cases hp : s.pingIntervalRef with
  | none =>
    simp only [hp] at hi
    cases hxa : x.armed with
    | false => rfl
    | true =>
      have := honly i x hi hxa
      rw [hp] at this
      cases this
  | some id =>
    simp only [hp, clearTimer] at hi
    rw [List.getElem?_modify] at hi
    cases hs : s.timers[i]? with
    | none => simp [hs] at hi
    | some x0 =>
      simp [hs] at hi
      by_cases hid : id = i
      · simp [hid] at hi
        rw [← hi]
      · simp [hid] at hi
        subst hi
        cases hxa : x0.armed with
        | false => rfl
        | true =>
          have := honly i x0 hs hxa
          rw [hp] at this
          exact absurd (Option.some.inj this) hid

/-- C25 as stated fails: `openWithLeakedTimer` is an open connection with
`reconnectAttempts = 0` and a token, reached by a run of the hook, in which a
reconnect timer that nothing refers to is still armed.  After the first close
two reconnect timers are pending, not one, and after the close of the fifth
reconnect attempt a timer is still armed. -/
theorem failures_with_leaked_timer_counterexample :
    run mounted leakedTimerThenOpen = .ok openWithLeakedTimer ∧
    openWithLeakedTimer.wsRef = some 2 ∧
    openWithLeakedTimer.sockets.map (·.readyState) = [.CLOSED, .CLOSED, .OPEN] ∧
    openWithLeakedTimer.reconnectAttempts = 0 ∧
    truthy openWithLeakedTimer.authToken = true ∧
    (afterFailures true 1 openWithLeakedTimer).toOption.map armedReconnectTimers
      = some [1, 4] ∧
    (afterFailures true 6 openWithLeakedTimer).toOption.map armedReconnectTimers
      = some [1] := by
  decide

/-- C25, amended: from an open connection with `reconnectAttempts = 0` and a
token, in which no timer is armed except the ping interval held in
`pingIntervalRef`, when every connection ends with close code 1006, no
reconnect attempt reaches open, and the browser reports the failure of each
attempt with an error event before its close (and possibly before the first
close, `errorFirst`): after close `n`, for `n` from 1 to 5, `reconnectAttempts`
is `min n 5`, `n` reconnect timeouts of 3000 ms have been created since the
start, the last one pending and the others fired, and from the second close on
`connectionError` is non-null; after the sixth close, which ends the fifth
reconnect attempt, `reconnectAttempts` is 5, five reconnect timeouts have been
created, no timer is armed and `connectionError` is non-null; no seventh close
can follow. -/
theorem consecutive_failures_exhaust_reconnect (s : State) (h : Nat) (w : Socket)
    (errorFirst : Bool)
    (href : s.wsRef = some h) (hw : s.sockets[h]? = some w) (hopen : w.readyState = .OPEN)
    (hatt : s.reconnectAttempts = 0) (htok : truthy s.authToken = true)
    (honly : ∀ (i : Nat) (x : Timer), s.timers[i]? = some x → x.armed = true →
      s.pingIntervalRef = some i) :
    (∀ n, 1 ≤ n → n ≤ 5 → ∃ t, afterFailures errorFirst n s = .ok t ∧
      t.reconnectAttempts = min n 5 ∧
      t.timers = timersAfterPingClear s ++ List.replicate (n - 1) spentReconnect
        ++ [armedReconnect] ∧
      (∀ x ∈ timersAfterPingClear s, x.armed = false) ∧
      (2 ≤ n → t.connectionError = some "Connection error")) ∧
    (∃ t, afterFailures errorFirst 6 s = .ok t ∧
      t.reconnectAttempts = min 6 5 ∧
      t.timers = timersAfterPingClear s ++ List.replicate 5 spentReconnect ∧
      (∀ x ∈ t.timers, x.armed = false) ∧
      t.connectionError = some "Connection error" ∧
      t.connectionError ≠ none) ∧
    (∀ n, 7 ≤ n → ∃ e, afterFailures errorFirst n s = .error e) := by
  have hne : w.readyState ≠ .CLOSED := by
    rw [hopen]
    decide
  refine ⟨?_, ?_, afterFailures_stuck s h w errorFirst href hw hne hatt htok⟩
  · intro n h1 h5
    obtain ⟨j, rfl⟩ : ∃ j, n = j + 1 := ⟨n - 1, by omega⟩
    obtain ⟨t, ht, hatt', htim, _, _, _, _, _, herr⟩ :=
      afterFailures_inv s h w errorFirst href hw hne hatt htok j (by omega)
    refine ⟨t, ht, ?_, ?_, timersAfterPingClear_disarmed s honly, ?_⟩
    · rw [hatt']
      omega
    · simpa using htim
    · intro h2
      have hj : j ≠ 0 := by omega
      simpa [hj] using herr
  · obtain ⟨t, ht, hatt', htim, _, herr⟩ :=
      afterFailures_six s h w errorFirst href hw hne hatt htok
    refine ⟨t, ht, by rw [hatt']; rfl, htim, ?_, herr, by rw [herr]; simp⟩
    intro x hx
    rw [htim] at hx
    rcases List.mem_append.1 hx with hx | hx
    · exact timersAfterPingClear_disarmed s honly x hx
    · rw [List.eq_of_mem_replicate hx]
      rfl

/-- C25 amended, from `openConnection`, whose only armed timer is its ping
interval: after the third close three reconnect timeouts exist and the last is
pending; after the sixth close the counter is 5, no reconnect timer is armed
and the error is recorded. -/
theorem consecutive_failures_exhaust_reconnect_witness :
    openConnection.wsRef = some 0 ∧ openConnection.reconnectAttempts = 0 ∧
    truthy openConnection.authToken = true ∧
    openConnection.timers = [⟨.ping 0, 30000, true⟩] ∧
    openConnection.pingIntervalRef = some 0 ∧
    (∃ t, afterFailures false 3 openConnection = .ok t ∧
      t.reconnectAttempts = min 3 5 ∧
      t.timers = timersAfterPingClear openConnection ++ List.replicate (3 - 1) spentReconnect
        ++ [armedReconnect] ∧
      (∀ x ∈ timersAfterPingClear openConnection, x.armed = false) ∧
      (2 ≤ 3 → t.connectionError = some "Connection error")) ∧
    (afterFailures false 6 openConnection).toOption.map
        (fun t => (t.reconnectAttempts, armedReconnectTimers t, t.connectionError))
      = some (5, [], some "Connection error") :=
  have h := consecutive_failures_exhaust_reconnect openConnection 0
    ⟨"ws://localhost:8000/ws/notifications?token=tok", .OPEN, [], []⟩ false
    (by decide) (by decide) rfl (by decide) (by decide)
    (by
      intro i x hi ha
      have hts : openConnection.timers = [⟨.ping 0, 30000, true⟩] := by decide
      rw [hts] at hi
      cases i with
      | zero => decide
      | succ k => simp at hi)
  ⟨by decide, by decide, by decide, by decide, by decide, h.1 3 (by decide) (by decide),
   by decide⟩

theorem connect_of_no_url (s : State) (c : Option String) (h : getWsUrl s = none) :
    connect s c = .ok s := by
  unfold connect
  rw [h]

theorem getWsUrl_of_falsy_token (s : State)
    (h : s.authToken = none ∨ s.authToken = some "") : getWsUrl s = none := by
  unfold getWsUrl
  rcases h with h | h <;> simp [h, truthy]

theorem getWsUrl_contains_token (s : State) (T : String) (hT : T ≠ "")
    (htok : s.authToken = some T) :
    ∃ pre suf, getWsUrl s = some (pre ++ "/ws/notifications?token=" ++ T ++ suf) := by
  have htr : truthy (some T) = true := by simp [truthy, hT]
  by_cases hs : truthy s.scanIdRef = true
  · refine ⟨(if startsWith (if truthy s.backendUrlEnv then s.backendUrlEnv.getD ""
        else "http://localhost:8000") "https" then "wss" else "ws") ++ "://"
        ++ stripHttpScheme (if truthy s.backendUrlEnv then s.backendUrlEnv.getD ""
          else "http://localhost:8000"),
      "&scan_id=" ++ s.scanIdRef.getD "", ?_⟩
    unfold getWsUrl
    simp only [htok, htr, hs, Bool.not_true, Bool.false_eq_true, if_false, if_true,
      Option.getD_some, String.append_assoc]
  · refine ⟨(if startsWith (if truthy s.backendUrlEnv then s.backendUrlEnv.getD ""
        else "http://localhost:8000") "https" then "wss" else "ws") ++ "://"
        ++ stripHttpScheme (if truthy s.backendUrlEnv then s.backendUrlEnv.getD ""
          else "http://localhost:8000"),
      "", ?_⟩
    unfold getWsUrl
    simp only [htok, htr, hs, Bool.not_true, Bool.false_eq_true, if_false,
      Option.getD_some, String.append_empty]

/-- C26: let a reconnect timer be armed, and let the cookie and the scan id
have any values `tok` and `scan` when it fires, whatever they were when the
timer was scheduled.  The firing runs `connect()` on the state with those
values: with a non-empty token `T2` it creates exactly one socket, whose URL is
the `getWsUrl` of the state at firing and contains `token=T2`; with no token,
or an empty one, it creates no socket and only spends the timer. -/
theorem reconnect_resolves_endpoint_at_firing (s : State) (id d : Nat)
    (harmed : s.timers[id]? = some ⟨.reconnect, d, true⟩) (tok scan : Option String) :
    (∀ c, fireTimer { s with authToken := tok, scanIdRef := scan } id c
      = connect { s with
          authToken := tok, scanIdRef := scan, timers := clearTimer id s.timers } c) ∧
    (∀ T2 : String, T2 ≠ "" → tok = some T2 →
      ∃ url pre suf socks',
        getWsUrl { s with authToken := tok, scanIdRef := scan } = some url ∧
        url = pre ++ "/ws/notifications?token=" ++ T2 ++ suf ∧
        socks'.length = s.sockets.length ∧
        fireTimer { s with authToken := tok, scanIdRef := scan } id none
          = .ok { s with
              authToken := tok, scanIdRef := scan, timers := clearTimer id s.timers
              sockets := socks' ++ [⟨url, .CONNECTING, [], []⟩]
              wsRef := some s.sockets.length }) ∧
    ((tok = none ∨ tok = some "") →
      ∀ c, fireTimer { s with authToken := tok, scanIdRef := scan } id c
        = .ok { s with
            authToken := tok, scanIdRef := scan, timers := clearTimer id s.timers }) := by
  have hfire : ∀ c, fireTimer { s with authToken := tok, scanIdRef := scan } id c
      = connect { s with
          authToken := tok, scanIdRef := scan, timers := clearTimer id s.timers } c := by
    intro c
    unfold fireTimer
    simp only [harmed]
  refine ⟨hfire, ?_, ?_⟩
  · intro T2 hT2 htok
    obtain ⟨pre, suf, hurl⟩ :=
      getWsUrl_contains_token { s with authToken := tok, scanIdRef := scan } T2 hT2 htok
    have hurl' : getWsUrl { s with
        authToken := tok, scanIdRef := scan, timers := clearTimer id s.timers }
        = some (pre ++ "/ws/notifications?token=" ++ T2 ++ suf) := hurl
    obtain ⟨socks', hlen, hconn⟩ := connect_of_url _ _ hurl'
    exact ⟨_, pre, suf, socks', hurl, rfl, hlen, by rw [hfire, hconn]⟩
  · intro hfalsy c
    rw [hfire]
    exact connect_of_no_url _ c (getWsUrl_of_falsy_token _ hfalsy)

/-- C26 after one failure with the token `tok`: when the cookie is `tok2` at
firing the new socket's URL carries `tok2`; when the cookie is gone at firing
no socket is created. -/
theorem reconnect_resolves_endpoint_at_firing_witness :
    afterOneFailure.timers[0]? = some ⟨.reconnect, 3000, true⟩ ∧
    afterOneFailure.authToken = some "tok" ∧
    (fireTimer pendingWithNewToken 0 none).toOption.map (fun t => t.sockets.map (·.url))
      = some ["ws://localhost:8000/ws/notifications?token=tok",
              "ws://localhost:8000/ws/notifications?token=tok2"] ∧
    fireTimer { afterOneFailure with authToken := none, scanIdRef := none } 0 none
      = .ok { afterOneFailure with
          authToken := none, scanIdRef := none,
          timers := clearTimer 0 afterOneFailure.timers } :=
  have h := reconnect_resolves_endpoint_at_firing afterOneFailure 0 3000 (by decide) none none
  ⟨by decide, by decide, by decide, h.2.2 (Or.inl rfl) none⟩

/-- C30 on an open connection: a consumer that throws on the scan-complete
message, and the text `null`. -/
theorem onmessage_never_throws_witness :
    onmessage sampleParseNull (some throwingConsumer) openConnection scanCompleteText
      = .ok (openConnection, [scanCompleteJson]) ∧
    onmessage sampleParseNull (some throwingConsumer) openConnection "null"
      = .ok (openConnection, []) :=
  have h := onmessage_never_throws sampleParseNull openConnection
  ⟨h.2.2 throwingConsumer scanCompleteText _ rfl rfl (by simp [List.lookup])
      (by simp [List.lookup]),
   h.2.1 (some throwingConsumer) "null" rfl⟩

/-! ## `useScanWebSocket` -/

theorem handleMessage_ws (cb : Option ScanCallback) (st : ScanHookState) (data : Json) :
    (handleMessage cb st data).1.ws = st.ws := by
  unfold handleMessage
  repeat' split
  all_goals rfl

theorem handleMessage_foldl_ws (cb : Option ScanCallback) (calls : List Json) :
    ∀ st : ScanHookState,
      (calls.foldl (fun acc data => (handleMessage cb acc data).1) st).ws = st.ws := by
  induction calls with
  | nil => intro st; rfl
  | cons d ds ih =>
    intro st
    rw [List.foldl_cons, ih, handleMessage_ws]

/-- C27, the code on a `scan_complete` message: the handler stores
`data.notification` and calls `onScanComplete` once, but the connection of the
hook is untouched: the socket is still open, no `close` was called on it and
`isConnected` is still true.  For every text and callback the message event
returns with the inner hook state exactly as it was, so `disconnect` is never
invoked from the handler. -/
theorem scan_complete_leaves_connection_open :
    (scanHookOnmessage sampleParse (some quietScanCallback) scanHookOpen
        scanCompleteText).toOption.map (fun st => st.ws) = some scanHookOpen.ws ∧
    scanHookOpen.ws.sockets.map (fun w => (w.readyState, w.closeCalls)) = [(.OPEN, [])] ∧
    scanHookOpen.ws.isConnected = true ∧
    (scanHookOnmessage sampleParse (some quietScanCallback) scanHookOpen
        scanCompleteText).toOption.map (fun st => st.completions.length) = some 1 ∧
    (∀ (jsonParse : String → Except String Json) (cb : Option ScanCallback)
        (st : ScanHookState) (text : String),
      ∃ st', scanHookOnmessage jsonParse cb st text = .ok st' ∧ st'.ws = st.ws) := by
  refine ⟨rfl, by decide, by decide, rfl, ?_⟩
  intro jsonParse cb st text
  unfold scanHookOnmessage
  obtain ⟨calls, hcalls⟩ := onmessage_state jsonParse
    (some ⟨fun data =>
      match (handleMessage cb st data).2 with
      | .ok _ => false
      | .error _ => true⟩) st.ws text
  simp only [hcalls]
  exact ⟨_, rfl, by rw [handleMessage_foldl_ws]⟩

end Fixora
